import Mathlib

/-!
Verification of the bubble-shooter grid simulation engine
(`src/components/BubbleShooterCanvas.tsx`).

The component's game logic is embedded shallowly:

* JS numbers used for pixel coordinates, times and offsets become `ℚ`.
  The source's geometry constants `ROW_V_SPACING = Math.sqrt(3)*16*0.98`
  (irrational) and `COL_H_SPACING = 32*0.98` are passed to the embedded
  functions as parameters `V` and `C`; `BUBBLE_RADIUS = 16` is the
  parameter `R`.  Theorems quantify over these parameters (with the
  positivity facts that hold for the source's values), so they cover the
  source's concrete constants.
* The mutable refs (`gridRef`, `scoreRef`, `comboChainRef`,
  `descentOffsetRef`, `powerRef`, `nextQueueRef`, `movingRef`) become
  explicit state threaded through the functions.
* `Math.random()` draws become explicit oracle arguments (`roll`
  parameters), `Date.now()` / `performance.now()` become explicit `now`
  arguments.
* The unbounded `while (stack.length)` / `while (queue.length)` loops of
  `floodMatch`, `removeDisconnected` and the bomb blast become
  fuel-indexed recursions; the fuel supplied by the wrappers is proved
  sufficient where a claim depends on the traversal's result.
* Sound playback (`playPop`, `playCombo`, `playLose`) and canvas drawing
  are pure side effects with no game-state influence and are not
  modelled.  The host callbacks `onShot`/`onCombo` are modelled as
  boolean event flags in the returned state.
-/

attribute [local semireducible] Rat.add Rat.mul Rat.sub Rat.inv

namespace BubbleShooter

/-- The nine colors of `BubbleColor` in `src/lib/types` (palette shown in
`COLOR_TO_HEX`); `gray` is the non-matchable obstacle color. -/
inductive BubbleColor where
  | red | blue | green | yellow | purple | orange | cyan | pink | gray
deriving DecidableEq, Repr

/-- The five bubble kinds of `BubbleKind`. -/
inductive BubbleKind where
  | normal | rainbow | bomb | freeze | aim
deriving DecidableEq, Repr

/-- `Bubble` record: `id` is modelled as a natural number (the source uses
a random string, never inspected), pixel coordinates are rationals. -/
structure Bubble where
  id : ℕ
  row : ℤ
  col : ℤ
  x : ℚ
  y : ℚ
  color : BubbleColor
  kind : BubbleKind
  stationary : Bool
deriving DecidableEq, Repr

/-- The grid `(Bubble | null)[][]`: a list of rows, each a list of
optional bubbles. -/
abbrev Grid := List (List (Option Bubble))

/-- JavaScript's `%` on integers (remainder with the sign of the
dividend), applied to the divisor `2`.  Agrees with `Int.emod · 2` on
non-negative arguments. -/
def jsMod2 (r : ℤ) : ℤ := if r < 0 then -((-r) % 2) else r % 2

/-- JavaScript's `Math.round` (half-up rounding) on a rational. -/
def jsRound (q : ℚ) : ℤ := ⌊q + 1/2⌋

/-- Reading `grid[r][c]`: `none` for out-of-range indices (JS
`undefined`) as well as for `null` cells. -/
def gridGet (g : Grid) (r c : ℤ) : Option Bubble :=
  if r < 0 ∨ c < 0 then none
  else ((g[r.toNat]?).bind (fun row => row[c.toNat]?)).join

/-- Writing `grid[r][c] = v` (no-op outside the array bounds, mirroring
that such writes never affect later indexed reads of the JS array). -/
def gridSet (g : Grid) (r c : ℤ) (v : Option Bubble) : Grid :=
  if r < 0 ∨ c < 0 then g
  else g.mapIdx (fun i row => if i = r.toNat then row.set c.toNat v else row)

/-- Usable width of row `r`: `cols - (r % 2 === 1 ? 1 : 0)` — odd rows
have one fewer usable column. -/
def rowWidth (cols : ℕ) (r : ℤ) : ℤ := (cols : ℤ) - (if jsMod2 r = 1 then 1 else 0)

/-- `gridToXY(row, col)`: derived pixel position of a cell, given the
spacing parameters `V = ROW_V_SPACING`, `C = COL_H_SPACING`,
`R = BUBBLE_RADIUS` and the current descent offset `d`. -/
def gridToXY (V C R d : ℚ) (row col : ℤ) : ℚ × ℚ :=
  let rowOffset : ℚ := if jsMod2 row = 0 then 0 else C / 2
  (rowOffset + R + (col : ℚ) * C, R + (row : ℚ) * V - d)

/-- `xyToGridGuess(x, y)`: coarse cell guess from a pixel position, with
the same parameters as `gridToXY`. -/
def xyToGridGuess (V C R d : ℚ) (x y : ℚ) : ℤ × ℤ :=
  let row := jsRound ((y + d - R) / V)
  let rowOffset : ℚ := if jsMod2 row = 0 then 0 else C / 2
  let col := jsRound ((x - rowOffset - R) / C)
  (row, col)

/-- The six hex-offset neighbor candidates of `(r, c)` (before the bounds
filter), in source order. -/
def neighborCandidates (r c : ℤ) : List (ℤ × ℤ) :=
  let odd := jsMod2 r = 1
  [(r, c - 1), (r, c + 1),
   (r - 1, c + (if odd then 0 else -1)), (r - 1, c + (if odd then 1 else 0)),
   (r + 1, c + (if odd then 0 else -1)), (r + 1, c + (if odd then 1 else 0))]

/-- `neighbors(r, c)`: in-bounds neighbor cells together with their grid
contents (`b` may be `none` for an empty in-bounds cell). -/
def neighbors (g : Grid) (cols : ℕ) (r c : ℤ) : List (ℤ × ℤ × Option Bubble) :=
  (neighborCandidates r c).filterMap (fun rc =>
    if rc.1 < 0 ∨ (g.length : ℤ) ≤ rc.1 then none
    else if rc.2 < 0 ∨ rowWidth cols rc.1 ≤ rc.2 then none
    else some (rc.1, rc.2, gridGet g rc.1 rc.2))

/-- Just the cells of `neighbors(r, c)` (used by the bomb blast, which
expands through empty cells as well). -/
def nbrCells (g : Grid) (cols : ℕ) (p : ℤ × ℤ) : List (ℤ × ℤ) :=
  (neighbors g cols p.1 p.2).map (fun n => (n.1, n.2.1))

/-- The clamping performed at the start of `placeBubbleAt`: row clamped
into `[0, grid.length)`, then column clamped into `[0, maxCols)` where
`maxCols` is the usable width of the clamped row. -/
def clampCell (g : Grid) (cols : ℕ) (row col : ℤ) : ℤ × ℤ :=
  let row1 := if row < 0 then 0 else row
  let row2 := if (g.length : ℤ) ≤ row1 then (g.length : ℤ) - 1 else row1
  let maxCols := rowWidth cols row2
  let col1 := if col < 0 then 0 else col
  let col2 := if maxCols ≤ col1 then maxCols - 1 else col1
  (row2, col2)

/-- The field updates `b.row = row; b.col = col; b.x = x; b.y = y;
b.stationary = true` performed by `placeBubbleAt` on success, with
`(x, y) = gridToXY(row, col)` at the current descent offset `d`. -/
def placedBubble (V C R d : ℚ) (b : Bubble) (p : ℤ × ℤ) : Bubble :=
  { b with row := p.1, col := p.2, x := (gridToXY V C R d p.1 p.2).1,
           y := (gridToXY V C R d p.1 p.2).2, stationary := true }

/-- `placeBubbleAt(row, col, b)`: clamp the target cell, fail (`none`) if
it is occupied, otherwise store the bubble there with its `row`, `col`,
cached `(x, y)` and `stationary` updated.  Returns the new grid and the
updated bubble. -/
def placeBubbleAt (V C R d : ℚ) (g : Grid) (cols : ℕ) (row col : ℤ) (b : Bubble) :
    Option (Grid × Bubble) :=
  let p := clampCell g cols row col
  match gridGet g p.1 p.2 with
  | some _ => none
  | none =>
    some (gridSet g p.1 p.2 (some (placedBubble V C R d b p)),
      placedBubble V C R d b p)

/-- The fixed ordered candidate list probed by `trySnapAndResolve`,
starting from the coarse guess `p`. -/
def snapCandidates (p : ℤ × ℤ) : List (ℤ × ℤ) :=
  [(p.1, p.2), (p.1, p.2 - 1), (p.1, p.2 + 1),
   (p.1 - 1, p.2), (p.1 + 1, p.2),
   (p.1 - 1, p.2 - 1), (p.1 + 1, p.2 + 1)]

/-- The snap placement loop: try `placeBubbleAt` on each candidate in
order, keeping the first success. -/
def tryPlaceList (V C R d : ℚ) (g : Grid) (cols : ℕ) (b : Bubble) :
    List (ℤ × ℤ) → Option (Grid × Bubble)
  | [] => none
  | rc :: rest =>
    match placeBubbleAt V C R d g cols rc.1 rc.2 b with
    | some out => some out
    | none => tryPlaceList V C R d g cols b rest

/-- The placement phase of `trySnapAndResolve`: guess a cell from the
bubble's pixel position and probe the candidate list. -/
def trySnapPlace (V C R d : ℚ) (g : Grid) (cols : ℕ) (b : Bubble) :
    Option (Grid × Bubble) :=
  tryPlaceList V C R d g cols b (snapCandidates (xyToGridGuess V C R d b.x b.y))

/-- One step of `floodMatch`'s explicit-stack traversal, with fuel for
the source's unbounded `while (stack.length)` loop.  The stack's head is
its top; pushes follow the source's push order (last pushed on top). -/
def floodLoop (g : Grid) (cols : ℕ) (targetColor : BubbleColor) :
    ℕ → List (ℤ × ℤ) → Finset (ℤ × ℤ) → List (ℤ × ℤ) → List (ℤ × ℤ)
  | 0, _, _, res => res
  | _ + 1, [], _, res => res
  | fuel + 1, cur :: rest, visited, res =>
    if cur ∈ visited then floodLoop g cols targetColor fuel rest visited res
    else
      let visited' := insert cur visited
      match gridGet g cur.1 cur.2 with
      | none => floodLoop g cols targetColor fuel rest visited' res
      | some b =>
        if b.color = targetColor ∨ b.kind = BubbleKind.rainbow then
          let pushes := (neighbors g cols cur.1 cur.2).filterMap (fun n =>
            match n.2.2 with
            | none => none
            | some nb =>
              if nb.color = targetColor ∨ nb.kind = BubbleKind.rainbow then
                some (n.1, n.2.1)
              else none)
          floodLoop g cols targetColor fuel (pushes.reverse ++ rest) visited'
            (res ++ [cur])
        else floodLoop g cols targetColor fuel rest visited' res

/-- Fuel that is (proved, where needed) sufficient for the traversal
loops over a `g.length × cols` grid. -/
def traverseFuel (g : Grid) (cols : ℕ) : ℕ := cols + 7 * g.length * cols + 7

/-- `floodMatch(r, c, targetColor)`: the connected same-color-or-rainbow
set collected from the seed cell, in the source's visit order. -/
def floodMatch (g : Grid) (cols : ℕ) (r c : ℤ) (targetColor : BubbleColor) :
    List (ℤ × ℤ) :=
  floodLoop g cols targetColor (traverseFuel g cols) [(r, c)] ∅ []

/-- One step of `removeDisconnected`'s anchoring traversal: pop a cell;
if unvisited and occupied, push every in-bounds neighbor holding a
non-gray bubble that is not yet visited. -/
def discLoop (g : Grid) (cols : ℕ) :
    ℕ → List (ℤ × ℤ) → Finset (ℤ × ℤ) → Finset (ℤ × ℤ)
  | 0, _, visited => visited
  | _ + 1, [], visited => visited
  | fuel + 1, cur :: rest, visited =>
    if cur ∈ visited then discLoop g cols fuel rest visited
    else
      let visited' := insert cur visited
      match gridGet g cur.1 cur.2 with
      | none => discLoop g cols fuel rest visited'
      | some _ =>
        let pushes := (neighbors g cols cur.1 cur.2).filterMap (fun n =>
          match n.2.2 with
          | none => none
          | some nb =>
            if (n.1, n.2.1) ∈ visited' ∨ nb.color = BubbleColor.gray then none
            else some (n.1, n.2.1))
        discLoop g cols fuel (pushes.reverse ++ rest) visited'

/-- The seed stack of `removeDisconnected`: every occupied cell of row 0,
pushed for `c = 0 .. cols-1` (so the last pushed — highest column — is on
top after the reversal). -/
def discSeeds (g : Grid) (cols : ℕ) : List (ℤ × ℤ) :=
  (List.range cols).filterMap (fun c : ℕ =>
    if (gridGet g 0 (c : ℤ)).isSome then some ((0 : ℤ), (c : ℤ)) else none)

/-- The anchored-cell set computed by `removeDisconnected`'s traversal. -/
def discVisited (g : Grid) (cols : ℕ) : Finset (ℤ × ℤ) :=
  discLoop g cols (traverseFuel g cols) (discSeeds g cols).reverse ∅

/-- The drop test of `removeDisconnected`'s sweep: an occupied, non-gray
cell not in the visited set falls. -/
def shouldDrop (visited : Finset (ℤ × ℤ)) (r c : ℕ) (cell : Option Bubble) : Bool :=
  match cell with
  | some b => decide (b.color ≠ BubbleColor.gray ∧ ((r : ℤ), (c : ℤ)) ∉ visited)
  | none => false

/-- `removeDisconnected()`: clear every dropping cell and return the new
grid together with `dropCount`. -/
def removeDisconnected (g : Grid) (cols : ℕ) : Grid × ℕ :=
  let visited := discVisited g cols
  (g.mapIdx (fun r row => row.mapIdx (fun c cell =>
      if shouldDrop visited r c cell then none else cell)),
   (g.mapIdx (fun r row =>
      (row.mapIdx (fun c cell => shouldDrop visited r c cell)).count true)).sum)

/-- One step of the bomb blast's breadth-first expansion (`queue.shift`
takes the head; pushes append at the tail).  In the source `seen` and
`around` receive exactly the same insertions, so a single set is kept. -/
def bombLoop (g : Grid) (cols : ℕ) :
    ℕ → List ((ℤ × ℤ) × ℕ) → Finset (ℤ × ℤ) → Finset (ℤ × ℤ)
  | 0, _, seen => seen
  | _ + 1, [], seen => seen
  | fuel + 1, (p, dep) :: rest, seen =>
    if 2 < dep then bombLoop g cols fuel rest seen
    else if p ∈ seen then bombLoop g cols fuel rest seen
    else bombLoop g cols fuel
      (rest ++ (nbrCells g cols p).map (fun q => (q, dep + 1))) (insert p seen)

/-- The `around` set of the bomb branch: cells reached from the placed
cell within hex-graph depth 2. -/
def bombAround (g : Grid) (cols : ℕ) (o : ℤ × ℤ) : Finset (ℤ × ℤ) :=
  bombLoop g cols 260 [(o, 0)] ∅

/-- The bomb branch's removal sweep over `around`: every bubble on a
reached cell whose color is not gray is cleared. -/
def bombSweep (g : Grid) (around : Finset (ℤ × ℤ)) : Grid :=
  g.mapIdx (fun r row => row.mapIdx (fun c cell =>
    match cell with
    | some b =>
      if ((r : ℤ), (c : ℤ)) ∈ around ∧ b.color ≠ BubbleColor.gray then none
      else some b
    | none => none))

/-- Removal of a matched group: `grid[cell.r][cell.c] = null` for each
collected cell in order. -/
def removeCells (g : Grid) (cells : List (ℤ × ℤ)) : Grid :=
  cells.foldl (fun acc rc => gridSet acc rc.1 rc.2 none) g

/-- The state read and written by `trySnapAndResolve` (grid, score,
combo chain and the two power-up timestamps) plus the `onCombo` event
flag raised during resolution. -/
structure ResolveOut where
  grid : Grid
  score : ℤ
  comboChain : ℕ
  freezeUntil : ℚ
  aimBoostUntil : ℚ
  comboEvent : Bool
deriving DecidableEq, Repr

/-- `trySnapAndResolve(b)`: probe the candidate cells; on failure the
bubble is discarded with no state change; on success dispatch on the
bubble's kind (bomb blast, freeze/aim power-up, or color matching).
`now` is the `Date.now()` reading used for power-up expiries. -/
def trySnapAndResolve (V C R d : ℚ) (cols : ℕ) (g : Grid) (score : ℤ)
    (combo : ℕ) (freezeU aimU : ℚ) (b : Bubble) (now : ℚ) : ResolveOut :=
  match trySnapPlace V C R d g cols b with
  | none => ⟨g, score, combo, freezeU, aimU, false⟩
  | some (g1, b') =>
    match b'.kind with
    | BubbleKind.bomb =>
      let around := bombAround g1 cols (b'.row, b'.col)
      let g2 := bombSweep g1 around
      -- `removeDisconnected(w)` is called but its returned count is not used
      let g3 := (removeDisconnected g2 cols).1
      ⟨g3, score, combo, freezeU, aimU, false⟩
    | BubbleKind.freeze =>
      ⟨gridSet g1 b'.row b'.col none, score, combo, now + 5000, aimU, false⟩
    | BubbleKind.aim =>
      ⟨gridSet g1 b'.row b'.col none, score, combo, freezeU, now + 6000, false⟩
    | _ =>
      let group := floodMatch g1 cols b'.row b'.col b'.color
      if 3 ≤ group.length then
        let g2 := removeCells g1 group
        let rd := removeDisconnected g2 cols
        if 0 < rd.2 then
          ⟨rd.1, score + 10 * group.length + 5 * rd.2, combo + 1, freezeU, aimU, true⟩
        else
          ⟨rd.1, score + 10 * group.length, combo + 1, freezeU, aimU, false⟩
      else ⟨g1, score, 0, freezeU, aimU, false⟩

/-- The whole engine state held in the component's refs. -/
structure EngineState where
  grid : Grid
  moving : Option Bubble
  dir : Option (ℚ × ℚ)
  score : ℤ
  comboChain : ℕ
  descentOffset : ℚ
  freezeUntil : ℚ
  aimBoostUntil : ℚ
  nextQueue : List BubbleKind
deriving DecidableEq, Repr

/-- One `Math.random()` roll of `refillNextQueue`'s loop body, as a
function of the level's rainbow flag. -/
def rollKind (rainbowEnabled : Bool) (roll : ℚ) : BubbleKind :=
  if rainbowEnabled ∧ roll < 8/100 then BubbleKind.rainbow
  else if roll < 11/100 then BubbleKind.bomb
  else if roll < 135/1000 then BubbleKind.freeze
  else if roll < 16/100 then BubbleKind.aim
  else BubbleKind.normal

/-- `refillNextQueue()`: build a fresh three-entry queue from three rolls
and overwrite `nextQueueRef` with it. -/
def refillNextQueue (rainbowEnabled : Bool) (r1 r2 r3 : ℚ) (s : EngineState) :
    EngineState :=
  { s with nextQueue :=
      [rollKind rainbowEnabled r1, rollKind rainbowEnabled r2,
       rollKind rainbowEnabled r3] }

/-- `shoot(w, h)`: a no-op while a bubble is in flight; otherwise
dequeue the next kind, refill the queue when it drops below two entries,
spawn the projectile at the bottom-center launch point and emit the
`onShot` event (the returned flag).  `color` abstracts the random
in-palette color pick and `(dx, dy)` the aim direction `(cos a, sin a)`;
`r1 r2 r3` are the rolls consumed if a refill triggers. -/
def shoot (w h R : ℚ) (rainbowEnabled : Bool) (r1 r2 r3 : ℚ)
    (color : BubbleColor) (dx dy : ℚ) (newId : ℕ) (s : EngineState) :
    EngineState × Bool :=
  match s.moving with
  | some _ => (s, false)
  | none =>
    let kind := s.nextQueue.headD BubbleKind.normal
    let s1 := { s with nextQueue := s.nextQueue.tail }
    let s2 := if s1.nextQueue.length < 2
      then refillNextQueue rainbowEnabled r1 r2 r3 s1 else s1
    ({ s2 with
        moving := some
          { id := newId, row := -1, col := -1, x := w / 2, y := h - R - 8,
            color := color, kind := kind, stationary := false },
        dir := some (dx, dy) }, true)

/-- `addNewDescendingRow(w, h)`: build a fully occupied new top row
(cells colored by the `rowColors` oracle, ids by `newIds`, cached
positions from `gridToXY(0, c)` at the current offset `d`), increment
every existing bubble's logical `row` (its cached `(x, y)` is not
touched), prepend the new row and discard the bottom row. -/
def addNewDescendingRow (V C R d : ℚ) (cols : ℕ) (rowColors : ℕ → BubbleColor)
    (newIds : ℕ → ℕ) (g : Grid) : Grid :=
  let newRow : List (Option Bubble) := (List.range cols).map (fun c =>
    some { id := newIds c, row := 0, col := (c : ℤ),
           x := (gridToXY V C R d 0 c).1, y := (gridToXY V C R d 0 c).2,
           color := rowColors c, kind := BubbleKind.normal, stationary := true })
  let g1 : Grid := g.map (fun row => row.map (Option.map
    (fun b => { b with row := b.row + 1 })))
  (newRow :: g1).dropLast

/-- The per-tick descent increment
`(frozen ? descentSpeed * 0.35 : descentSpeed) * dt` with
`dt = min(0.033, elapsed)` and `frozen = now < freezeUntil`. -/
def descentIncrement (descentSpeed : ℚ) (s : EngineState)
    (dtRaw nowWall : ℚ) : ℚ :=
  let dt := min (33/1000) dtRaw
  let frozen := nowWall < s.freezeUntil
  (if frozen then descentSpeed * (35/100) else descentSpeed) * dt

/-- The descent-update prefix of the frame loop: clamp the elapsed time
to 33 ms, advance the offset at the level rate (reduced to 35 % while
frozen), and when the offset exceeds one row spacing subtract that
spacing and insert a new row. -/
def tickDescent (descentSpeed V C R : ℚ) (cols : ℕ)
    (rowColors : ℕ → BubbleColor) (newIds : ℕ → ℕ) (s : EngineState)
    (dtRaw nowWall : ℚ) : EngineState :=
  let off1 := s.descentOffset + descentIncrement descentSpeed s dtRaw nowWall
  if V < off1 then
    { s with descentOffset := off1 - V,
             grid := addNewDescendingRow V C R (off1 - V) cols rowColors newIds
               s.grid }
  else { s with descentOffset := off1 }

/-- Iterated descent ticks over a list of `(dtRaw, nowWall)` inputs. -/
def runDescentTicks (descentSpeed V C R : ℚ) (cols : ℕ)
    (rowColors : ℕ → BubbleColor) (newIds : ℕ → ℕ) (s : EngineState)
    (inputs : List (ℚ × ℚ)) : EngineState :=
  inputs.foldl (fun st i =>
    tickDescent descentSpeed V C R cols rowColors newIds st i.1 i.2) s

/-! ### Specification-side definitions

These definitions follow the specification's words and are compared with
the source-derived functions above. -/

/-- Modelled from the spec (§4.4): the snap target is the first candidate
— after clamping into valid bounds — whose cell is unoccupied. -/
def specSnapTarget (V C R d : ℚ) (g : Grid) (cols : ℕ) (b : Bubble) :
    Option (ℤ × ℤ) :=
  ((snapCandidates (xyToGridGuess V C R d b.x b.y)).map
      (fun rc => clampCell g cols rc.1 rc.2)).find?
    (fun p => (gridGet g p.1 p.2).isNone)

/-- Spec notion of anchoring (§4.2): occupied row-0 cells seed the
traversal, which passes through in-bounds neighbor cells holding a
non-gray occupied bubble, color irrelevant. -/
inductive Anchored (g : Grid) (cols : ℕ) : ℤ × ℤ → Prop where
  | seed (c : ℕ) (hc : c < cols) (hb : (gridGet g 0 (c : ℤ)).isSome) :
      Anchored g cols (0, (c : ℤ))
  | step (p q : ℤ × ℤ) (bb : Bubble) (hp : Anchored g cols p)
      (hq : (q.1, q.2, some bb) ∈ neighbors g cols p.1 p.2)
      (hgray : bb.color ≠ BubbleColor.gray) : Anchored g cols q

/-- One anchoring-traversal edge of `removeDisconnected`: `q` is an
in-bounds neighbor of `p` holding a non-gray bubble. -/
def EligSucc (g : Grid) (cols : ℕ) (p q : ℤ × ℤ) : Prop :=
  ∃ bb : Bubble, (q.1, q.2, some bb) ∈ neighbors g cols p.1 p.2
    ∧ bb.color ≠ BubbleColor.gray

/-- The rectangle of cell coordinates that can ever enter the anchoring
traversal (seeds and neighbor cells all lie in it); used as the
termination measure's carrier. -/
def cellRect (g : Grid) (cols : ℕ) : Finset (ℤ × ℤ) :=
  Finset.Icc 0 ((g.length : ℤ) - 1) ×ˢ Finset.Icc 0 ((cols : ℤ) - 1)

/-- Number of occupied cells of a grid. -/
def occupiedCount (g : Grid) : ℕ :=
  (g.map (fun row => row.countP (fun cell => cell.isSome))).sum

/-- Spec notion of "within hex (neighbor-graph) distance 2" of an origin
cell: the origin itself, its in-bounds neighbors, and their in-bounds
neighbors. -/
def WithinTwo (g : Grid) (cols : ℕ) (o q : ℤ × ℤ) : Prop :=
  q = o ∨ q ∈ nbrCells g cols o ∨ ∃ m ∈ nbrCells g cols o, q ∈ nbrCells g cols m

instance (g : Grid) (cols : ℕ) (o q : ℤ × ℤ) : Decidable (WithinTwo g cols o q) := by
  unfold WithinTwo
  exact inferInstance

/-- Sequential processing of one uniform-depth frontier of the bomb
blast's breadth-first loop: skip seen cells, mark new ones and collect
their neighbor lists in order. -/
def processFrontier (g : Grid) (cols : ℕ) :
    List (ℤ × ℤ) → Finset (ℤ × ℤ) → List (ℤ × ℤ) × Finset (ℤ × ℤ)
  | [], seen => ([], seen)
  | p :: rest, seen =>
    if p ∈ seen then processFrontier g cols rest seen
    else
      let out := processFrontier g cols rest (insert p seen)
      (nbrCells g cols p ++ out.1, out.2)

/-! ### Concrete fixtures

Small concrete grids and bubbles used by counterexamples and witnesses.
They use the simple geometry `V = 1`, `C = 1`, `R = 0`, `d = 0` (the
theorems quantifying over the geometry parameters cover the source's
actual constants). -/

/-- A stationary grid bubble at `(r, c)` with cached position
`gridToXY 1 1 0 0 r c`. -/
def gridBubble (r c : ℤ) (color : BubbleColor) : Bubble :=
  { id := 0, row := r, col := c, x := (gridToXY 1 1 0 0 r c).1,
    y := (gridToXY 1 1 0 0 r c).2, color := color, kind := BubbleKind.normal,
    stationary := true }

/-- An in-flight bubble of the given kind and color positioned exactly
over cell `(r, c)` in the fixture geometry. -/
def flyingBubble (r c : ℤ) (color : BubbleColor) (kind : BubbleKind) : Bubble :=
  { id := 9, row := -1, col := -1, x := (gridToXY 1 1 0 0 r c).1,
    y := (gridToXY 1 1 0 0 r c).2, color := color, kind := kind,
    stationary := false }

/-- A bubble already in flight, for the `shoot` no-op witness. -/
def flightState : EngineState :=
  { grid := [], moving := some (flyingBubble 0 0 BubbleColor.red BubbleKind.normal),
    dir := some (0, -1), score := 0, comboChain := 0, descentOffset := 0,
    freezeUntil := 0, aimBoostUntil := 0,
    nextQueue := [BubbleKind.bomb, BubbleKind.normal] }

/-- Two red bubbles on the anchor row with a free cell at `(0, 2)`;
snapping a red bubble there makes a 3-match that drops nothing. -/
def matchGrid : Grid :=
  [[some (gridBubble 0 0 BubbleColor.red), some (gridBubble 0 1 BubbleColor.red),
    none],
   [none, none, none]]

/-- A column of red bubbles hanging below the anchor row, with two
connectors at row 2; a bomb at `(0, 1)` blasts everything within hex
distance 2, disconnecting `(3, 0)`. -/
def bombGrid : Grid :=
  [[some (gridBubble 0 0 BubbleColor.red), none, none],
   [some (gridBubble 1 0 BubbleColor.red), none, none],
   [some (gridBubble 2 0 BubbleColor.red), some (gridBubble 2 1 BubbleColor.red),
    none],
   [some (gridBubble 3 0 BubbleColor.red), none, none]]

/-- The bomb bubble after snapping into `(0, 1)` of `bombGrid`. -/
def bombBubblePlaced : Bubble :=
  placedBubble 1 1 0 0 (flyingBubble 0 1 BubbleColor.red BubbleKind.bomb) (0, 1)

/-- `bombGrid` with the bomb placed at `(0, 1)`. -/
def bombPlacedGrid : Grid := gridSet bombGrid 0 1 (some bombBubblePlaced)

/-- A gray obstacle seeded on the anchor row with a red bubble hanging
from it, and a floating red bubble at `(3, 0)` cut off by the empty
row 2. -/
def discGrid : Grid :=
  [[some (gridBubble 0 0 BubbleColor.gray), none, none],
   [some (gridBubble 1 0 BubbleColor.red), none, none],
   [none, none, none],
   [some (gridBubble 3 0 BubbleColor.red), none, none]]

/-- `matchGrid` at rest (descent offset 0), for the stale-cache
counterexample. -/
def descState : EngineState :=
  { grid := matchGrid, moving := none, dir := none, score := 0, comboChain := 0,
    descentOffset := 0, freezeUntil := 0, aimBoostUntil := 0, nextQueue := [] }

/-- A state ready to shoot: no bubble in flight, two kinds queued. -/
def readyState : EngineState :=
  { grid := [], moving := none, dir := none, score := 0, comboChain := 0,
    descentOffset := 0, freezeUntil := 0, aimBoostUntil := 0,
    nextQueue := [BubbleKind.normal, BubbleKind.normal] }

/-! ### General lemmas -/

theorem jsRound_intCast (n : ℤ) : jsRound (n : ℚ) = n := by
  unfold jsRound
  rw [Int.floor_int_add]
  norm_num

theorem gridGet_mapIdxGrid (f : ℕ → ℕ → Option Bubble → Option Bubble)
    (hf : ∀ r c, f r c none = none) (g : Grid) (r c : ℤ) :
    gridGet (g.mapIdx (fun r row => row.mapIdx (fun c cell => f r c cell))) r c
      = f r.toNat c.toNat (gridGet g r c) := by
  unfold gridGet
  by_cases hneg : r < 0 ∨ c < 0
  · rw [if_pos hneg, if_pos hneg, hf]
  · rw [if_neg hneg, if_neg hneg, List.getElem?_mapIdx]
    cases hr : g[r.toNat]? with
    | none => simp [hf]
    | some row =>
      simp only [Option.map_some', Option.some_bind, List.getElem?_mapIdx]
      cases hc : row[c.toNat]? with
      | none => simp [hf]
      | some cell => simp

theorem gridGet_gridSet_none_self (g : Grid) (r c : ℤ) :
    gridGet (gridSet g r c none) r c = none := by
  unfold gridGet gridSet
  by_cases hneg : r < 0 ∨ c < 0
  · rw [if_pos hneg]
  · rw [if_neg hneg, if_neg hneg, List.getElem?_mapIdx]
    cases hr : g[r.toNat]? with
    | none => simp
    | some row =>
      simp only [Option.map_some', Option.some_bind, if_true]
      rw [List.getElem?_set]
      simp

theorem gridGet_gridSet_ne (g : Grid) (r c : ℤ) (v : Option Bubble) (r' c' : ℤ)
    (h : ¬(r = r' ∧ c = c')) :
    gridGet (gridSet g r c v) r' c' = gridGet g r' c' := by
  unfold gridGet gridSet
  by_cases hneg : r < 0 ∨ c < 0
  · rw [if_pos hneg]
  · rw [if_neg hneg]
    by_cases hneg' : r' < 0 ∨ c' < 0
    · rw [if_pos hneg', if_pos hneg']
    · rw [if_neg hneg', if_neg hneg', List.getElem?_mapIdx]
      by_cases hrr : r'.toNat = r.toNat
      · have hr_eq : r = r' := by omega
        have hcc : c.toNat ≠ c'.toNat := by
          rcases h with h
          omega
        cases hr : g[r'.toNat]? with
        | none => simp
        | some row =>
          simp only [Option.map_some', Option.some_bind]
          rw [if_pos hrr, List.getElem?_set, if_neg hcc]
      · cases hr : g[r'.toNat]? with
        | none => simp
        | some row => simp [hrr]

theorem gridGet_removeCells (g : Grid) (cells : List (ℤ × ℤ)) (p : ℤ × ℤ) :
    gridGet (removeCells g cells) p.1 p.2
      = if p ∈ cells then none else gridGet g p.1 p.2 := by
  induction cells generalizing g with
  | nil => simp [removeCells]
  | cons q rest ih =>
    have hstep : removeCells g (q :: rest)
        = removeCells (gridSet g q.1 q.2 none) rest := rfl
    rw [hstep, ih]
    by_cases hp : p ∈ rest
    · rw [if_pos hp, if_pos (List.mem_cons_of_mem _ hp)]
    · rw [if_neg hp]
      by_cases hq : p = q
      · subst hq
        rw [if_pos (List.mem_cons_self _ _), gridGet_gridSet_none_self]
      · rw [gridGet_gridSet_ne _ _ _ _ _ _ (by
          intro hcon
          exact hq (Prod.ext hcon.1.symm hcon.2.symm))]
        rw [if_neg (by
          intro hmem
          rcases List.mem_cons.mp hmem with h1 | h2
          · exact hq h1
          · exact hp h2)]

theorem gridGet_removeDisconnected (g : Grid) (cols : ℕ) (r c : ℤ) :
    gridGet (removeDisconnected g cols).1 r c
      = if shouldDrop (discVisited g cols) r.toNat c.toNat (gridGet g r c)
        then none else gridGet g r c :=
  gridGet_mapIdxGrid
    (fun r c cell => if shouldDrop (discVisited g cols) r c cell then none
      else cell)
    (by intro r c; simp [shouldDrop]) g r c

theorem gridGet_removeDisconnected_of_none (g : Grid) (cols : ℕ) (r c : ℤ)
    (h : gridGet g r c = none) :
    gridGet (removeDisconnected g cols).1 r c = none := by
  rw [gridGet_removeDisconnected, h]
  simp [shouldDrop]

/-- **C8.** For every cell `(row,col)` (in particular every valid one)
and every descent offset `d`, `xyToGridGuess` applied to
`gridToXY(row,col)` recovers exactly `(row,col)`: the two transforms are
mutually inverse, both incorporating the same descent offset.  The
hypotheses hold for the source's spacing constants
(`ROW_V_SPACING ≈ 27.15`, `COL_H_SPACING = 31.36`). -/
theorem coordinate_roundtrip (V C R d : ℚ) (row col : ℤ)
    (hV : V ≠ 0) (hC : C ≠ 0) :
    xyToGridGuess V C R d (gridToXY V C R d row col).1
      (gridToXY V C R d row col).2 = (row, col) := by
  unfold gridToXY xyToGridGuess
  have h1 : (R + (row : ℚ) * V - d + d - R) / V = ((row : ℚ)) := by
    rw [div_eq_iff hV]; ring
  simp only [h1, jsRound_intCast]
  have h2 : ∀ ro : ℚ, (ro + R + (col : ℚ) * C - ro - R) / C = ((col : ℚ)) := by
    intro ro; rw [div_eq_iff hC]; ring
  simp only [h2, jsRound_intCast]

/-- Witness for `coordinate_roundtrip` at `V = 2`, `C = 3`, `R = 16`,
`d = 5`, cell `(7, 4)`. -/
theorem coordinate_roundtrip_witness :
    ((2 : ℚ) ≠ 0 ∧ (3 : ℚ) ≠ 0) ∧
      xyToGridGuess 2 3 16 5 (gridToXY 2 3 16 5 7 4).1
        (gridToXY 2 3 16 5 7 4).2 = (7, 4) :=
  ⟨⟨by norm_num, by norm_num⟩,
    coordinate_roundtrip 2 3 16 5 7 4 (by norm_num) (by norm_num)⟩

theorem tryPlaceList_eq_find (V C R d : ℚ) (g : Grid) (cols : ℕ) (b : Bubble) :
    ∀ cands : List (ℤ × ℤ),
      tryPlaceList V C R d g cols b cands
        = ((cands.map (fun rc => clampCell g cols rc.1 rc.2)).find?
              (fun p => (gridGet g p.1 p.2).isNone)).map
            (fun p => (gridSet g p.1 p.2 (some (placedBubble V C R d b p)),
                placedBubble V C R d b p))
  | [] => rfl
  | rc :: rest => by
    rw [tryPlaceList, List.map_cons]
    show (match placeBubbleAt V C R d g cols rc.1 rc.2 b with
      | some out => some out
      | none => tryPlaceList V C R d g cols b rest) = _
    unfold placeBubbleAt
    dsimp only
    rcases h : gridGet g (clampCell g cols rc.1 rc.2).1
        (clampCell g cols rc.1 rc.2).2 with _ | bb
    · rw [List.find?_cons_of_pos _ (by simp [h])]
      rfl
    · rw [List.find?_cons_of_neg _ (by simp [h])]
      exact tryPlaceList_eq_find V C R d g cols b rest

/-- **C4.** For every contact event the snap resolver is equivalent to:
clamp each of the seven ordered candidates (the guess, left, right, up,
down, up-left diagonal, down-right diagonal) into valid bounds, and
occupy the first whose clamped cell is unoccupied; when every clamped
candidate is occupied, the bubble is discarded — the whole resolution
leaves the state unchanged and raises no event, performing no kind
resolution. -/
theorem snap_places_first_free_candidate (V C R d : ℚ) (g : Grid) (cols : ℕ)
    (b : Bubble) (score : ℤ) (combo : ℕ) (freezeU aimU now : ℚ) :
    trySnapPlace V C R d g cols b
        = (specSnapTarget V C R d g cols b).map
            (fun p => (gridSet g p.1 p.2 (some (placedBubble V C R d b p)),
                placedBubble V C R d b p))
      ∧ (specSnapTarget V C R d g cols b = none →
          trySnapAndResolve V C R d cols g score combo freezeU aimU b now
            = ⟨g, score, combo, freezeU, aimU, false⟩) := by
  have hmain := tryPlaceList_eq_find V C R d g cols b
    (snapCandidates (xyToGridGuess V C R d b.x b.y))
  constructor
  · exact hmain
  · intro hnone
    unfold trySnapAndResolve
    rw [show trySnapPlace V C R d g cols b = none by
      rw [trySnapPlace, hmain]; unfold specSnapTarget at hnone; rw [hnone]; rfl]

/-- Witness for `snap_places_first_free_candidate`: a fully occupied
1 × 2 grid discards the incoming bubble with no state change. -/
theorem snap_places_first_free_candidate_witness :
    specSnapTarget 1 1 0 0
        [[some { id := 0, row := 0, col := 0, x := 0, y := 0,
                 color := BubbleColor.red, kind := BubbleKind.normal,
                 stationary := true },
          some { id := 1, row := 0, col := 1, x := 1, y := 0,
                 color := BubbleColor.blue, kind := BubbleKind.normal,
                 stationary := true }]] 2
        { id := 2, row := -1, col := -1, x := 0, y := 0,
          color := BubbleColor.red, kind := BubbleKind.normal,
          stationary := false } = none ∧
      trySnapAndResolve 1 1 0 0 2
          [[some { id := 0, row := 0, col := 0, x := 0, y := 0,
                   color := BubbleColor.red, kind := BubbleKind.normal,
                   stationary := true },
            some { id := 1, row := 0, col := 1, x := 1, y := 0,
                   color := BubbleColor.blue, kind := BubbleKind.normal,
                   stationary := true }]] 5 2 0 0
          { id := 2, row := -1, col := -1, x := 0, y := 0,
            color := BubbleColor.red, kind := BubbleKind.normal,
            stationary := false } 0
        = ⟨[[some { id := 0, row := 0, col := 0, x := 0, y := 0,
                    color := BubbleColor.red, kind := BubbleKind.normal,
                    stationary := true },
             some { id := 1, row := 0, col := 1, x := 1, y := 0,
                    color := BubbleColor.blue, kind := BubbleKind.normal,
                    stationary := true }]], 5, 2, 0, 0, false⟩ :=
  ⟨by decide,
    (snap_places_first_free_candidate 1 1 0 0 _ 2 _ 5 2 0 0 0).2 (by decide)⟩

/-- **C9.** `shoot()` while a bubble is already in flight is a complete
no-op: the state (in particular the next-queue and its head) is
unchanged, no bubble is spawned and the `onShot` event flag is not
raised. -/
theorem shoot_noop_while_moving (w h R : ℚ) (rainbowEnabled : Bool)
    (r1 r2 r3 : ℚ) (color : BubbleColor) (dx dy : ℚ) (newId : ℕ)
    (s : EngineState) (m : Bubble) (hm : s.moving = some m) :
    shoot w h R rainbowEnabled r1 r2 r3 color dx dy newId s = (s, false) := by
  unfold shoot
  rw [hm]

/-- Witness for `shoot_noop_while_moving` on a state with a bubble in
flight. -/
theorem shoot_noop_while_moving_witness :
    flightState.moving = some (flyingBubble 0 0 BubbleColor.red BubbleKind.normal) ∧
      shoot 600 800 16 true 0 0 0 BubbleColor.red 0 (-1) 9 flightState
        = (flightState, false) :=
  ⟨rfl, shoot_noop_while_moving 600 800 16 true 0 0 0 BubbleColor.red 0 (-1) 9
    flightState _ rfl⟩

/-- **C10.** `refillNextQueue` overwrites the whole queue with exactly
the three freshly rolled kinds, independent of the previous queue
contents (so a kind still queued when a refill triggers is discarded);
consequently a launching `shoot()` call — from any reachable queue, i.e.
one of length at most 3 — leaves the queue with exactly 2 or exactly 3
entries, and from a length-2 queue the surviving queued kind is replaced
by the three fresh rolls. -/
theorem shoot_queue_replacement (w h R : ℚ) (rainbowEnabled : Bool)
    (r1 r2 r3 : ℚ) (color : BubbleColor) (dx dy : ℚ) (newId : ℕ)
    (s t : EngineState) (hm : s.moving = none)
    (hlen : s.nextQueue.length ≤ 3) :
    (refillNextQueue rainbowEnabled r1 r2 r3 t).nextQueue
        = [rollKind rainbowEnabled r1, rollKind rainbowEnabled r2,
           rollKind rainbowEnabled r3]
      ∧ ((shoot w h R rainbowEnabled r1 r2 r3 color dx dy newId s).1.nextQueue.length = 2
        ∨ (shoot w h R rainbowEnabled r1 r2 r3 color dx dy newId s).1.nextQueue.length = 3)
      ∧ (s.nextQueue.length = 2 →
          (shoot w h R rainbowEnabled r1 r2 r3 color dx dy newId s).1.nextQueue
            = [rollKind rainbowEnabled r1, rollKind rainbowEnabled r2,
               rollKind rainbowEnabled r3]) := by
  have htail : s.nextQueue.tail.length = s.nextQueue.length - 1 :=
    List.length_tail s.nextQueue
  refine ⟨rfl, ?_, ?_⟩
  · unfold shoot
    rw [hm]
    dsimp only
    by_cases hq : s.nextQueue.tail.length < 2
    · rw [if_pos hq]
      right
      rfl
    · rw [if_neg hq]
      left
      show s.nextQueue.tail.length = 2
      omega
  · intro h2
    unfold shoot
    rw [hm]
    dsimp only
    rw [if_pos (by omega)]
    rfl

/-- Witness for `shoot_queue_replacement` on a ready state holding a
two-entry queue. -/
theorem shoot_queue_replacement_witness :
    (readyState.moving = none ∧ readyState.nextQueue.length ≤ 3) ∧
      ((refillNextQueue false (1/2) (1/2) (1/2) readyState).nextQueue
          = [rollKind false (1/2), rollKind false (1/2), rollKind false (1/2)]
        ∧ ((shoot 600 800 16 false (1/2) (1/2) (1/2) BubbleColor.red 0 (-1) 9
              readyState).1.nextQueue.length = 2
          ∨ (shoot 600 800 16 false (1/2) (1/2) (1/2) BubbleColor.red 0 (-1) 9
              readyState).1.nextQueue.length = 3)
        ∧ (readyState.nextQueue.length = 2 →
            (shoot 600 800 16 false (1/2) (1/2) (1/2) BubbleColor.red 0 (-1) 9
                readyState).1.nextQueue
              = [rollKind false (1/2), rollKind false (1/2),
                 rollKind false (1/2)])) :=
  ⟨⟨rfl, by decide⟩,
    shoot_queue_replacement 600 800 16 false (1/2) (1/2) (1/2) BubbleColor.red
      0 (-1) 9 readyState readyState rfl (by decide)⟩

/-- **C3 counterexample.**  Snapping a red bubble onto `matchGrid` at
`(0, 2)` removes the 3-match but triggers no disconnection-drop (the
resolver raises no combo event, which the source does exactly when the
drop count is positive), yet the combo chain is incremented from 0 to 1.
The claim — the counter increments exactly on a match that also triggers
a disconnection-drop — is therefore false at this input. -/
theorem combo_increment_without_drop :
    (trySnapAndResolve 1 1 0 0 3 matchGrid 0 0 0 0
        (flyingBubble 0 2 BubbleColor.red BubbleKind.normal) 0).comboEvent
        = false
      ∧ (trySnapAndResolve 1 1 0 0 3 matchGrid 0 0 0 0
          (flyingBubble 0 2 BubbleColor.red BubbleKind.normal) 0).grid
        = [[none, none, none], [none, none, none]]
      ∧ (trySnapAndResolve 1 1 0 0 3 matchGrid 0 0 0 0
          (flyingBubble 0 2 BubbleColor.red BubbleKind.normal) 0).comboChain
        = 1 := by
  decide

/-- **C3 (amended).**  The combo chain after a snap resolution is:
unchanged when no placement candidate is available; unchanged on
bomb/freeze/aim snaps; incremented by one on every successful match
(flood set of size at least 3) of a normal or rainbow bubble, whether or
not a disconnection-drop follows; and reset to zero exactly when a
placed normal/rainbow bubble's flood match has size below 3. -/
theorem combo_chain_characterization (V C R d : ℚ) (cols : ℕ) (g : Grid)
    (score : ℤ) (combo : ℕ) (freezeU aimU : ℚ) (b : Bubble) (now : ℚ) :
    (trySnapAndResolve V C R d cols g score combo freezeU aimU b now).comboChain
      = match trySnapPlace V C R d g cols b with
        | none => combo
        | some (g1, b') =>
          match b'.kind with
          | BubbleKind.bomb => combo
          | BubbleKind.freeze => combo
          | BubbleKind.aim => combo
          | _ =>
            if 3 ≤ (floodMatch g1 cols b'.row b'.col b'.color).length
            then combo + 1 else 0 := by
  unfold trySnapAndResolve
  cases h : trySnapPlace V C R d g cols b with
  | none => rfl
  | some out =>
    obtain ⟨g1, b'⟩ := out
    dsimp only
    cases hk : b'.kind <;> dsimp only
    all_goals
      by_cases hlen : 3 ≤ (floodMatch g1 cols b'.row b'.col b'.color).length
    case pos | pos =>
      rw [if_pos hlen, if_pos hlen]
      by_cases hdrop :
        0 < (removeDisconnected
          (removeCells g1 (floodMatch g1 cols b'.row b'.col b'.color)) cols).2
      · rw [if_pos hdrop]
      · rw [if_neg hdrop]
    case neg | neg =>
      rw [if_neg hlen, if_neg hlen]

/-- **C7.** For every snap that places a normal or rainbow bubble, the
flood-matched set is removed only when its size is at least 3: below 3
the grid stays exactly the post-placement grid and the score is
unchanged; at 3 or more every member of the matched set is cleared (and
the grid is the disconnection sweep of the group removal). -/
theorem match_minimum_size (V C R d : ℚ) (cols : ℕ) (g : Grid) (score : ℤ)
    (combo : ℕ) (freezeU aimU : ℚ) (b : Bubble) (now : ℚ) (g1 : Grid)
    (b' : Bubble) (hplace : trySnapPlace V C R d g cols b = some (g1, b'))
    (hkind : b'.kind = BubbleKind.normal ∨ b'.kind = BubbleKind.rainbow) :
    ((floodMatch g1 cols b'.row b'.col b'.color).length < 3 →
      (trySnapAndResolve V C R d cols g score combo freezeU aimU b now).grid = g1
      ∧ (trySnapAndResolve V C R d cols g score combo freezeU aimU b now).score
        = score)
    ∧ (3 ≤ (floodMatch g1 cols b'.row b'.col b'.color).length →
      (trySnapAndResolve V C R d cols g score combo freezeU aimU b now).grid
        = (removeDisconnected
            (removeCells g1 (floodMatch g1 cols b'.row b'.col b'.color)) cols).1
      ∧ ∀ p ∈ floodMatch g1 cols b'.row b'.col b'.color,
          gridGet (trySnapAndResolve V C R d cols g score combo freezeU aimU b
            now).grid p.1 p.2 = none) := by
  have hgrid : ∀ p ∈ floodMatch g1 cols b'.row b'.col b'.color,
      gridGet (removeDisconnected
        (removeCells g1 (floodMatch g1 cols b'.row b'.col b'.color)) cols).1
        p.1 p.2 = none := by
    intro p hp
    apply gridGet_removeDisconnected_of_none
    rw [gridGet_removeCells, if_pos hp]
  unfold trySnapAndResolve
  rw [hplace]
  dsimp only
  rcases hkind with hk | hk <;>
    · rw [hk]
      dsimp only
      constructor
      · intro hlt
        rw [if_neg (by omega)]
        exact ⟨rfl, rfl⟩
      · intro hge
        rw [if_pos hge]
        by_cases hdrop :
          0 < (removeDisconnected
            (removeCells g1 (floodMatch g1 cols b'.row b'.col b'.color)) cols).2
        · rw [if_pos hdrop]
          exact ⟨rfl, hgrid⟩
        · rw [if_neg hdrop]
          exact ⟨rfl, hgrid⟩

/-- Witness for `match_minimum_size`: the `matchGrid` 3-match scenario,
where the placed cell is `(0, 2)`. -/
theorem match_minimum_size_witness :
    (trySnapPlace 1 1 0 0 matchGrid 3
        (flyingBubble 0 2 BubbleColor.red BubbleKind.normal)
      = some (gridSet matchGrid 0 2 (some (placedBubble 1 1 0 0
          (flyingBubble 0 2 BubbleColor.red BubbleKind.normal) (0, 2))),
        placedBubble 1 1 0 0
          (flyingBubble 0 2 BubbleColor.red BubbleKind.normal) (0, 2)))
    ∧ (((floodMatch (gridSet matchGrid 0 2 (some (placedBubble 1 1 0 0
          (flyingBubble 0 2 BubbleColor.red BubbleKind.normal) (0, 2)))) 3
          (placedBubble 1 1 0 0
            (flyingBubble 0 2 BubbleColor.red BubbleKind.normal) (0, 2)).row
          (placedBubble 1 1 0 0
            (flyingBubble 0 2 BubbleColor.red BubbleKind.normal) (0, 2)).col
          (placedBubble 1 1 0 0
            (flyingBubble 0 2 BubbleColor.red BubbleKind.normal) (0, 2)).color
          ).length < 3 →
        (trySnapAndResolve 1 1 0 0 3 matchGrid 0 0 0 0
          (flyingBubble 0 2 BubbleColor.red BubbleKind.normal) 0).grid
          = gridSet matchGrid 0 2 (some (placedBubble 1 1 0 0
              (flyingBubble 0 2 BubbleColor.red BubbleKind.normal) (0, 2)))
        ∧ (trySnapAndResolve 1 1 0 0 3 matchGrid 0 0 0 0
            (flyingBubble 0 2 BubbleColor.red BubbleKind.normal) 0).score = 0)
      ∧ (3 ≤ (floodMatch (gridSet matchGrid 0 2 (some (placedBubble 1 1 0 0
            (flyingBubble 0 2 BubbleColor.red BubbleKind.normal) (0, 2)))) 3
            (placedBubble 1 1 0 0
              (flyingBubble 0 2 BubbleColor.red BubbleKind.normal) (0, 2)).row
            (placedBubble 1 1 0 0
              (flyingBubble 0 2 BubbleColor.red BubbleKind.normal) (0, 2)).col
            (placedBubble 1 1 0 0
              (flyingBubble 0 2 BubbleColor.red BubbleKind.normal) (0, 2)).color
            ).length →
          (trySnapAndResolve 1 1 0 0 3 matchGrid 0 0 0 0
            (flyingBubble 0 2 BubbleColor.red BubbleKind.normal) 0).grid
            = (removeDisconnected (removeCells
                (gridSet matchGrid 0 2 (some (placedBubble 1 1 0 0
                  (flyingBubble 0 2 BubbleColor.red BubbleKind.normal) (0, 2))))
                (floodMatch (gridSet matchGrid 0 2 (some (placedBubble 1 1 0 0
                    (flyingBubble 0 2 BubbleColor.red BubbleKind.normal)
                    (0, 2)))) 3
                  (placedBubble 1 1 0 0
                    (flyingBubble 0 2 BubbleColor.red BubbleKind.normal)
                    (0, 2)).row
                  (placedBubble 1 1 0 0
                    (flyingBubble 0 2 BubbleColor.red BubbleKind.normal)
                    (0, 2)).col
                  (placedBubble 1 1 0 0
                    (flyingBubble 0 2 BubbleColor.red BubbleKind.normal)
                    (0, 2)).color)) 3).1
          ∧ ∀ p ∈ floodMatch (gridSet matchGrid 0 2 (some (placedBubble 1 1 0 0
                (flyingBubble 0 2 BubbleColor.red BubbleKind.normal) (0, 2)))) 3
              (placedBubble 1 1 0 0
                (flyingBubble 0 2 BubbleColor.red BubbleKind.normal) (0, 2)).row
              (placedBubble 1 1 0 0
                (flyingBubble 0 2 BubbleColor.red BubbleKind.normal) (0, 2)).col
              (placedBubble 1 1 0 0
                (flyingBubble 0 2 BubbleColor.red BubbleKind.normal)
                (0, 2)).color,
            gridGet (trySnapAndResolve 1 1 0 0 3 matchGrid 0 0 0 0
              (flyingBubble 0 2 BubbleColor.red BubbleKind.normal) 0).grid
              p.1 p.2 = none)) :=
  ⟨by decide,
    match_minimum_size 1 1 0 0 3 matchGrid 0 0 0 0
      (flyingBubble 0 2 BubbleColor.red BubbleKind.normal) 0 _ _ (by decide)
      (Or.inl (by decide))⟩

/-- **C1 counterexample.**  A single descent tick (rate 1, elapsed 10 ms,
no row insertion) moves the descent offset from 0 to 1/100 while leaving
every grid bubble untouched, so the bubble cached at `(0,0)` no longer
satisfies `y = gridToXY(0,0).y` at the current offset: the cached
position is not recomputable from the current offset, refuting the
invariant as stated. -/
theorem cached_position_stale_after_tick :
    (tickDescent 1 1 1 0 3 (fun _ => BubbleColor.red) (fun _ => 0) descState
        (1/100) 0).grid = matchGrid
    ∧ (tickDescent 1 1 1 0 3 (fun _ => BubbleColor.red) (fun _ => 0) descState
        (1/100) 0).descentOffset = 1/100
    ∧ gridGet matchGrid 0 0 = some (gridBubble 0 0 BubbleColor.red)
    ∧ (gridBubble 0 0 BubbleColor.red).y
        ≠ (gridToXY 1 1 0
            (tickDescent 1 1 1 0 3 (fun _ => BubbleColor.red) (fun _ => 0)
              descState (1/100) 0).descentOffset 0 0).2 := by
  decide

/-- **C1 (amended).**  A grid bubble's cached `(x, y)` equals
`gridToXY(row, col)` evaluated with the descent offset current at the
moment the bubble was stored (placement via `placeBubbleAt`, or creation
in `addNewDescendingRow`'s fresh row); it is never refreshed afterwards:
a descent tick that inserts no row changes only the offset, and a row
insertion increments each surviving bubble's `row` index while leaving
its cached `(x, y)` untouched. -/
theorem cached_position_set_at_store_time
    (V C R d : ℚ) (cols : ℕ) (g : Grid) (row col : ℤ) (b : Bubble)
    (g' : Grid) (b'' : Bubble)
    (hplace : placeBubbleAt V C R d g cols row col b = some (g', b''))
    (rowColors : ℕ → BubbleColor) (newIds : ℕ → ℕ) (c : ℕ) (hc : c < cols)
    (hg : g ≠ [])
    (r cc : ℤ) (bb : Bubble) (hget : gridGet g r cc = some bb)
    (hr : r + 1 < (g.length : ℤ))
    (rate : ℚ) (s : EngineState) (dtRaw nowWall : ℚ)
    (hoff : s.descentOffset + descentIncrement rate s dtRaw nowWall ≤ V) :
    (b''.x = (gridToXY V C R d b''.row b''.col).1
      ∧ b''.y = (gridToXY V C R d b''.row b''.col).2)
    ∧ gridGet (addNewDescendingRow V C R d cols rowColors newIds g) 0 (c : ℤ)
        = some { id := newIds c, row := 0, col := (c : ℤ),
                 x := (gridToXY V C R d 0 (c : ℤ)).1,
                 y := (gridToXY V C R d 0 (c : ℤ)).2,
                 color := rowColors c, kind := BubbleKind.normal,
                 stationary := true }
    ∧ gridGet (addNewDescendingRow V C R d cols rowColors newIds g) (r + 1) cc
        = some { bb with row := bb.row + 1 }
    ∧ (tickDescent rate V C R cols rowColors newIds s dtRaw nowWall).grid
        = s.grid
    ∧ (tickDescent rate V C R cols rowColors newIds s dtRaw nowWall).descentOffset
        = s.descentOffset + descentIncrement rate s dtRaw nowWall := by
  have hglen : 0 < g.length := List.length_pos.mpr hg
  have hcell : ∀ rr c2 : ℤ, ∀ b2 : Bubble, gridGet g rr c2 = some b2 →
      ¬(rr < 0 ∨ c2 < 0) ∧ ∃ row2, g[rr.toNat]? = some row2
        ∧ row2[c2.toNat]? = some (some b2) := by
    intro rr c2 b2 hb2
    unfold gridGet at hb2
    by_cases hneg : rr < 0 ∨ c2 < 0
    · rw [if_pos hneg] at hb2
      cases hb2
    · rw [if_neg hneg] at hb2
      refine ⟨hneg, ?_⟩
      cases hrow : g[rr.toNat]? with
      | none => rw [hrow] at hb2; cases hb2
      | some row2 =>
        rw [hrow] at hb2
        simp only [Option.some_bind] at hb2
        cases hc2 : row2[c2.toNat]? with
        | none => rw [hc2] at hb2; cases hb2
        | some cell =>
          rw [hc2] at hb2
          cases cell with
          | none => cases hb2
          | some b3 =>
            refine ⟨row2, rfl, ?_⟩
            rw [hc2]
            cases hb2
            rfl
  refine ⟨?_, ?_, ?_, ?_, ?_⟩
  · unfold placeBubbleAt at hplace
    dsimp only at hplace
    rcases hocc : gridGet g (clampCell g cols row col).1
        (clampCell g cols row col).2 with _ | bbb
    · rw [hocc] at hplace
      have hpair := Option.some.inj hplace
      have hb : placedBubble V C R d b (clampCell g cols row col) = b'' :=
        congrArg Prod.snd hpair
      rw [← hb]
      exact ⟨rfl, rfl⟩
    · rw [hocc] at hplace
      cases hplace
  · unfold addNewDescendingRow gridGet
    dsimp only
    rw [if_neg (by omega : ¬((0 : ℤ) < 0 ∨ (c : ℤ) < 0))]
    rw [List.getElem?_dropLast]
    rw [if_pos (by
      simp only [List.length_cons, List.length_map]
      omega)]
    rw [Int.toNat_zero, List.getElem?_cons_zero, Option.some_bind]
    rw [show ((c : ℤ)).toNat = c from Int.toNat_natCast c]
    rw [List.getElem?_map, List.getElem?_range hc]
    rfl
  · obtain ⟨hneg, row2, hrow, hc2⟩ := hcell r cc bb hget
    unfold addNewDescendingRow gridGet
    dsimp only
    rw [if_neg (by omega : ¬(r + 1 < 0 ∨ cc < 0))]
    rw [List.getElem?_dropLast]
    rw [if_pos (by
      simp only [List.length_cons, List.length_map]
      omega)]
    rw [show (r + 1).toNat = r.toNat + 1 by omega]
    rw [List.getElem?_cons_succ, List.getElem?_map, hrow]
    rw [Option.map_some', Option.some_bind, List.getElem?_map, hc2]
    rfl
  · unfold tickDescent
    dsimp only
    rw [if_neg (not_lt.mpr hoff)]
  · unfold tickDescent
    dsimp only
    rw [if_neg (not_lt.mpr hoff)]

/-- Witness for `cached_position_set_at_store_time` on the `matchGrid`
fixture: a placement at `(0, 2)`, a fresh row cell at `(0, 1)`, the
reindexed old bubble from `(0, 0)`, and a 10 ms no-insertion tick. -/
theorem cached_position_set_at_store_time_witness :
    ((placedBubble 1 1 0 0 (flyingBubble 0 2 BubbleColor.red BubbleKind.normal)
        (0, 2)).x
      = (gridToXY 1 1 0 0
          (placedBubble 1 1 0 0
            (flyingBubble 0 2 BubbleColor.red BubbleKind.normal) (0, 2)).row
          (placedBubble 1 1 0 0
            (flyingBubble 0 2 BubbleColor.red BubbleKind.normal) (0, 2)).col).1
    ∧ (placedBubble 1 1 0 0 (flyingBubble 0 2 BubbleColor.red BubbleKind.normal)
        (0, 2)).y
      = (gridToXY 1 1 0 0
          (placedBubble 1 1 0 0
            (flyingBubble 0 2 BubbleColor.red BubbleKind.normal) (0, 2)).row
          (placedBubble 1 1 0 0
            (flyingBubble 0 2 BubbleColor.red BubbleKind.normal) (0, 2)).col).2)
    ∧ gridGet (addNewDescendingRow 1 1 0 0 3 (fun _ => BubbleColor.red)
        (fun _ => 0) matchGrid) 0 (1 : ℕ)
      = some { id := 0, row := 0, col := (1 : ℕ),
               x := (gridToXY 1 1 0 0 0 (1 : ℕ)).1,
               y := (gridToXY 1 1 0 0 0 (1 : ℕ)).2,
               color := BubbleColor.red, kind := BubbleKind.normal,
               stationary := true }
    ∧ gridGet (addNewDescendingRow 1 1 0 0 3 (fun _ => BubbleColor.red)
        (fun _ => 0) matchGrid) (0 + 1) 0
      = some { gridBubble 0 0 BubbleColor.red with
               row := (gridBubble 0 0 BubbleColor.red).row + 1 }
    ∧ (tickDescent 1 1 1 0 3 (fun _ => BubbleColor.red) (fun _ => 0) descState
        (1/100) 0).grid = descState.grid
    ∧ (tickDescent 1 1 1 0 3 (fun _ => BubbleColor.red) (fun _ => 0) descState
        (1/100) 0).descentOffset
      = descState.descentOffset + descentIncrement 1 descState (1/100) 0 :=
  cached_position_set_at_store_time 1 1 0 0 3 matchGrid 0 2
    (flyingBubble 0 2 BubbleColor.red BubbleKind.normal)
    (gridSet matchGrid 0 2 (some (placedBubble 1 1 0 0
      (flyingBubble 0 2 BubbleColor.red BubbleKind.normal) (0, 2))))
    (placedBubble 1 1 0 0
      (flyingBubble 0 2 BubbleColor.red BubbleKind.normal) (0, 2))
    (by decide) (fun _ => BubbleColor.red) (fun _ => 0) 1 (by decide)
    (by decide) 0 0 (gridBubble 0 0 BubbleColor.red) (by decide) (by decide)
    1 descState (1/100) 0 (by decide)

theorem descentIncrement_bounds (rate : ℚ) (s : EngineState)
    (dtRaw nowWall : ℚ) (hrate : 0 ≤ rate) (hdt : 0 ≤ dtRaw) :
    0 ≤ descentIncrement rate s dtRaw nowWall
    ∧ descentIncrement rate s dtRaw nowWall ≤ rate * (33/1000) := by
  unfold descentIncrement
  dsimp only
  have hdt0 : 0 ≤ min (33/1000 : ℚ) dtRaw := le_min (by norm_num) hdt
  have hdt1 : min (33/1000 : ℚ) dtRaw ≤ 33/1000 := min_le_left _ _
  by_cases hfr : nowWall < s.freezeUntil
  · rw [if_pos hfr]
    constructor
    · exact mul_nonneg (mul_nonneg hrate (by norm_num)) hdt0
    · calc rate * (35/100) * min (33/1000 : ℚ) dtRaw
          ≤ rate * min (33/1000 : ℚ) dtRaw := by
            apply mul_le_mul_of_nonneg_right _ hdt0
            nlinarith
        _ ≤ rate * (33/1000) := mul_le_mul_of_nonneg_left hdt1 hrate
  · rw [if_neg hfr]
    constructor
    · exact mul_nonneg hrate hdt0
    · exact mul_le_mul_of_nonneg_left hdt1 hrate

/-- **C6 counterexample.**  With a (level-configurable) descent rate of
1000 and row spacing `V = 1`, a single 10 ms tick from offset 0 advances
the offset to 10, which crosses the threshold ten times over; the code
fires exactly one insertion and subtracts one spacing, leaving the
offset at 9 — outside `[0, rowSpacing)`.  The claimed invariant
therefore fails for unrestricted rates. -/
theorem descent_offset_escapes :
    (tickDescent 1000 1 1 0 3 (fun _ => BubbleColor.red) (fun _ => 0)
        descState (1/100) 0).descentOffset = 9
    ∧ ¬((tickDescent 1000 1 1 0 3 (fun _ => BubbleColor.red) (fun _ => 0)
        descState (1/100) 0).descentOffset < 1) := by
  decide

/-- **C6 (amended).**  Provided the per-tick descent increment stays
below one row spacing — which holds whenever
`descentRate * 0.033 < rowSpacing`, true for the game's actual rates —
each tick behaves as: no insertion and offset grows by the increment
when the new offset does not exceed the spacing, otherwise exactly one
row insertion with exactly one spacing subtracted; consequently across
any sequence of ticks the offset stays within `[0, rowSpacing]` (the
right endpoint only attainable by an increment landing exactly on the
threshold, where no insertion fires yet). -/
theorem descent_offset_invariant (rate V C R : ℚ) (cols : ℕ)
    (rowColors : ℕ → BubbleColor) (newIds : ℕ → ℕ)
    (hrate : 0 ≤ rate) (hV : rate * (33/1000) < V) :
    (∀ (s : EngineState) (dtRaw nowWall : ℚ), 0 ≤ dtRaw →
      (s.descentOffset + descentIncrement rate s dtRaw nowWall ≤ V →
        (tickDescent rate V C R cols rowColors newIds s dtRaw nowWall).descentOffset
            = s.descentOffset + descentIncrement rate s dtRaw nowWall
        ∧ (tickDescent rate V C R cols rowColors newIds s dtRaw nowWall).grid
            = s.grid)
      ∧ (V < s.descentOffset + descentIncrement rate s dtRaw nowWall →
        (tickDescent rate V C R cols rowColors newIds s dtRaw nowWall).descentOffset
            = s.descentOffset + descentIncrement rate s dtRaw nowWall - V
        ∧ (tickDescent rate V C R cols rowColors newIds s dtRaw nowWall).grid
            = addNewDescendingRow V C R
                (s.descentOffset + descentIncrement rate s dtRaw nowWall - V)
                cols rowColors newIds s.grid))
    ∧ (∀ (s : EngineState) (inputs : List (ℚ × ℚ)),
        (∀ i ∈ inputs, 0 ≤ i.1) →
        0 ≤ s.descentOffset → s.descentOffset ≤ V →
        0 ≤ (runDescentTicks rate V C R cols rowColors newIds s
            inputs).descentOffset
        ∧ (runDescentTicks rate V C R cols rowColors newIds s
            inputs).descentOffset ≤ V) := by
  have htick : ∀ (s : EngineState) (dtRaw nowWall : ℚ), 0 ≤ dtRaw →
      (s.descentOffset + descentIncrement rate s dtRaw nowWall ≤ V →
        (tickDescent rate V C R cols rowColors newIds s dtRaw nowWall).descentOffset
            = s.descentOffset + descentIncrement rate s dtRaw nowWall
        ∧ (tickDescent rate V C R cols rowColors newIds s dtRaw nowWall).grid
            = s.grid)
      ∧ (V < s.descentOffset + descentIncrement rate s dtRaw nowWall →
        (tickDescent rate V C R cols rowColors newIds s dtRaw nowWall).descentOffset
            = s.descentOffset + descentIncrement rate s dtRaw nowWall - V
        ∧ (tickDescent rate V C R cols rowColors newIds s dtRaw nowWall).grid
            = addNewDescendingRow V C R
                (s.descentOffset + descentIncrement rate s dtRaw nowWall - V)
                cols rowColors newIds s.grid) := by
    intro s dtRaw nowWall _
    constructor
    · intro hle
      unfold tickDescent
      rw [if_neg (not_lt.mpr hle)]
      exact ⟨rfl, rfl⟩
    · intro hlt
      unfold tickDescent
      rw [if_pos hlt]
      exact ⟨rfl, rfl⟩
  refine ⟨htick, ?_⟩
  intro s inputs hdts h0 h1
  induction inputs generalizing s with
  | nil => exact ⟨h0, h1⟩
  | cons i rest ih =>
    have hstep : runDescentTicks rate V C R cols rowColors newIds s (i :: rest)
        = runDescentTicks rate V C R cols rowColors newIds
            (tickDescent rate V C R cols rowColors newIds s i.1 i.2) rest := rfl
    rw [hstep]
    have hi : 0 ≤ i.1 := hdts i (List.mem_cons_self _ _)
    obtain ⟨hd0, hd1⟩ := descentIncrement_bounds rate s i.1 i.2 hrate hi
    have hrest : ∀ j ∈ rest, 0 ≤ j.1 := fun j hj =>
      hdts j (List.mem_cons_of_mem _ hj)
    by_cases hcross :
      V < s.descentOffset + descentIncrement rate s i.1 i.2
    · obtain ⟨ho, _⟩ := (htick s i.1 i.2 hi).2 hcross
      exact ih _ hrest (by rw [ho]; linarith) (by rw [ho]; linarith)
    · obtain ⟨ho, _⟩ := (htick s i.1 i.2 hi).1 (not_lt.mp hcross)
      exact ih _ hrest (by rw [ho]; linarith) (by rw [ho]; linarith)

/-- Witness for `descent_offset_invariant`: rate 1, spacing 1, one 10 ms
tick from the resting `descState`. -/
theorem descent_offset_invariant_witness :
    ((tickDescent 1 1 1 0 3 (fun _ => BubbleColor.red) (fun _ => 0) descState
        (1/100) 0).descentOffset
      = descState.descentOffset + descentIncrement 1 descState (1/100) 0
    ∧ (tickDescent 1 1 1 0 3 (fun _ => BubbleColor.red) (fun _ => 0) descState
        (1/100) 0).grid = descState.grid)
    ∧ (0 ≤ (runDescentTicks 1 1 1 0 3 (fun _ => BubbleColor.red) (fun _ => 0)
        descState [(1/100, 0)]).descentOffset
    ∧ (runDescentTicks 1 1 1 0 3 (fun _ => BubbleColor.red) (fun _ => 0)
        descState [(1/100, 0)]).descentOffset ≤ 1) :=
  ⟨((descent_offset_invariant 1 1 1 0 3 (fun _ => BubbleColor.red) (fun _ => 0)
      (by norm_num) (by norm_num)).1 descState (1/100) 0 (by norm_num)).1
    (by decide),
   (descent_offset_invariant 1 1 1 0 3 (fun _ => BubbleColor.red) (fun _ => 0)
      (by norm_num) (by norm_num)).2 descState [(1/100, 0)] (by decide)
    (by decide) (by decide)⟩

theorem gridGet_neg (g : Grid) (r c : ℤ) (h : r < 0 ∨ c < 0) :
    gridGet g r c = none := by
  unfold gridGet
  rw [if_pos h]

theorem length_nbrCells_le (g : Grid) (cols : ℕ) (p : ℤ × ℤ) :
    (nbrCells g cols p).length ≤ 6 := by
  unfold nbrCells
  rw [List.length_map]
  calc (neighbors g cols p.1 p.2).length
      ≤ (neighborCandidates p.1 p.2).length := List.length_filterMap_le _ _
    _ = 6 := rfl

theorem processFrontier_seen (g : Grid) (cols : ℕ) :
    ∀ (f : List (ℤ × ℤ)) (seen : Finset (ℤ × ℤ)),
      (processFrontier g cols f seen).2 = seen ∪ f.toFinset
  | [], seen => by simp [processFrontier]
  | p :: rest, seen => by
    unfold processFrontier
    by_cases hp : p ∈ seen
    · rw [if_pos hp, processFrontier_seen g cols rest seen]
      ext x
      simp only [Finset.mem_union, List.toFinset_cons, Finset.mem_insert,
        List.mem_toFinset]
      constructor
      · rintro (hx | hx)
        · exact Or.inl hx
        · exact Or.inr (Or.inr hx)
      · rintro (hx | hx | hx)
        · exact Or.inl hx
        · exact Or.inl (hx ▸ hp)
        · exact Or.inr hx
    · rw [if_neg hp]
      dsimp only
      rw [processFrontier_seen g cols rest (insert p seen)]
      ext x
      simp only [Finset.mem_union, Finset.mem_insert, List.toFinset_cons,
        List.mem_toFinset]
      tauto

theorem processFrontier_next_len (g : Grid) (cols : ℕ) :
    ∀ (f : List (ℤ × ℤ)) (seen : Finset (ℤ × ℤ)),
      (processFrontier g cols f seen).1.length ≤ 6 * f.length
  | [], seen => by simp [processFrontier]
  | p :: rest, seen => by
    unfold processFrontier
    by_cases hp : p ∈ seen
    · rw [if_pos hp]
      calc (processFrontier g cols rest seen).1.length
          ≤ 6 * rest.length := processFrontier_next_len g cols rest seen
        _ ≤ 6 * (p :: rest).length := by rw [List.length_cons]; omega
    · rw [if_neg hp]
      dsimp only
      rw [List.length_append]
      have h1 := length_nbrCells_le g cols p
      have h2 := processFrontier_next_len g cols rest (insert p seen)
      simp only [List.length_cons]
      omega

theorem processFrontier_next_mem (g : Grid) (cols : ℕ) :
    ∀ (f : List (ℤ × ℤ)) (seen : Finset (ℤ × ℤ)) (q : ℤ × ℤ),
      q ∈ (processFrontier g cols f seen).1
        ↔ ∃ p ∈ f, p ∉ seen ∧ q ∈ nbrCells g cols p
  | [], seen, q => by simp [processFrontier]
  | p :: rest, seen, q => by
    unfold processFrontier
    by_cases hp : p ∈ seen
    · rw [if_pos hp, processFrontier_next_mem g cols rest seen q]
      constructor
      · rintro ⟨p', hp', hns, hq⟩
        exact ⟨p', List.mem_cons_of_mem _ hp', hns, hq⟩
      · rintro ⟨p', hp', hns, hq⟩
        rcases List.mem_cons.mp hp' with h1 | h1
        · exact absurd (h1 ▸ hp) hns
        · exact ⟨p', h1, hns, hq⟩
    · rw [if_neg hp]
      dsimp only
      rw [List.mem_append, processFrontier_next_mem g cols rest (insert p seen) q]
      constructor
      · rintro (hq | ⟨p', hp', hns, hq⟩)
        · exact ⟨p, List.mem_cons_self _ _, hp, hq⟩
        · exact ⟨p', List.mem_cons_of_mem _ hp',
            fun hc => hns (Finset.mem_insert_of_mem hc), hq⟩
      · rintro ⟨p', hp', hns, hq⟩
        rcases List.mem_cons.mp hp' with h1 | h1
        · exact Or.inl (h1 ▸ hq)
        · by_cases hpp : p' = p
          · exact Or.inl (hpp ▸ hq)
          · exact Or.inr ⟨p', h1,
              fun hc => (Finset.mem_insert.mp hc).elim hpp hns, hq⟩

theorem bombLoop_nil (g : Grid) (cols : ℕ) (fuel : ℕ) (seen : Finset (ℤ × ℤ)) :
    bombLoop g cols fuel [] seen = seen := by
  cases fuel <;> rfl

theorem bombLoop_block (g : Grid) (cols : ℕ) (dep : ℕ) (hdep : ¬2 < dep) :
    ∀ (frontier : List (ℤ × ℤ)) (tail : List ((ℤ × ℤ) × ℕ))
      (seen : Finset (ℤ × ℤ)) (fuel : ℕ),
      bombLoop g cols (frontier.length + fuel)
          (frontier.map (fun q => (q, dep)) ++ tail) seen
        = bombLoop g cols fuel
            (tail ++ (processFrontier g cols frontier seen).1.map
              (fun q => (q, dep + 1)))
            (processFrontier g cols frontier seen).2
  | [], tail, seen, fuel => by
    simp [processFrontier]
  | p :: rest, tail, seen, fuel => by
    have hlen : (p :: rest).length + fuel = (rest.length + fuel) + 1 := by
      simp only [List.length_cons]
      omega
    rw [hlen]
    show bombLoop g cols ((rest.length + fuel) + 1)
        ((p, dep) :: (rest.map (fun q => (q, dep)) ++ tail)) seen = _
    rw [bombLoop, if_neg hdep]
    unfold processFrontier
    by_cases hp : p ∈ seen
    · rw [if_pos hp, if_pos hp]
      exact bombLoop_block g cols dep hdep rest tail seen fuel
    · rw [if_neg hp, if_neg hp]
      dsimp only
      rw [List.append_assoc]
      rw [bombLoop_block g cols dep hdep rest
        (tail ++ (nbrCells g cols p).map (fun q => (q, dep + 1)))
        (insert p seen) fuel]
      rw [List.map_append, ← List.append_assoc]

theorem bombLoop_skipAll (g : Grid) (cols : ℕ) :
    ∀ (entries : List ((ℤ × ℤ) × ℕ)) (fuel : ℕ) (seen : Finset (ℤ × ℤ)),
      (∀ e ∈ entries, 2 < e.2) →
      bombLoop g cols (entries.length + fuel) entries seen = seen
  | [], fuel, seen, _ => by
    rw [List.length_nil, Nat.zero_add]
    exact bombLoop_nil g cols fuel seen
  | (p, dep) :: rest, fuel, seen, h => by
    have hlen : ((p, dep) :: rest).length + fuel = (rest.length + fuel) + 1 := by
      rw [List.length_cons]
      omega
    rw [hlen, bombLoop, if_pos (h _ (List.mem_cons_self _ _))]
    exact bombLoop_skipAll g cols rest fuel seen
      (fun e he => h e (List.mem_cons_of_mem _ he))

theorem mem_bombAround (g : Grid) (cols : ℕ) (o q : ℤ × ℤ) :
    q ∈ bombAround g cols o ↔ WithinTwo g cols o q := by
  have hlen1 : (processFrontier g cols [o] ∅).1.length ≤ 6 := by
    have h := processFrontier_next_len g cols [o] ∅
    simpa using h
  have hlen2 : (processFrontier g cols (processFrontier g cols [o] ∅).1
      (processFrontier g cols [o] ∅).2).1.length ≤ 36 := by
    have h := processFrontier_next_len g cols (processFrontier g cols [o] ∅).1
      (processFrontier g cols [o] ∅).2
    omega
  have hlen3 : (processFrontier g cols
      (processFrontier g cols (processFrontier g cols [o] ∅).1
        (processFrontier g cols [o] ∅).2).1
      (processFrontier g cols (processFrontier g cols [o] ∅).1
        (processFrontier g cols [o] ∅).2).2).1.length ≤ 216 := by
    have h := processFrontier_next_len g cols
      (processFrontier g cols (processFrontier g cols [o] ∅).1
        (processFrontier g cols [o] ∅).2).1
      (processFrontier g cols (processFrontier g cols [o] ∅).1
        (processFrontier g cols [o] ∅).2).2
    omega
  obtain ⟨r1, hr1⟩ : ∃ r1, 259 = (processFrontier g cols [o] ∅).1.length + r1 :=
    ⟨259 - (processFrontier g cols [o] ∅).1.length, by omega⟩
  obtain ⟨r2, hr2⟩ : ∃ r2, r1 = (processFrontier g cols
      (processFrontier g cols [o] ∅).1
      (processFrontier g cols [o] ∅).2).1.length + r2 :=
    ⟨r1 - (processFrontier g cols (processFrontier g cols [o] ∅).1
      (processFrontier g cols [o] ∅).2).1.length, by omega⟩
  obtain ⟨r3, hr3⟩ : ∃ r3, r2 = (processFrontier g cols
      (processFrontier g cols (processFrontier g cols [o] ∅).1
        (processFrontier g cols [o] ∅).2).1
      (processFrontier g cols (processFrontier g cols [o] ∅).1
        (processFrontier g cols [o] ∅).2).2).1.length + r3 :=
    ⟨r2 - (processFrontier g cols
      (processFrontier g cols (processFrontier g cols [o] ∅).1
        (processFrontier g cols [o] ∅).2).1
      (processFrontier g cols (processFrontier g cols [o] ∅).1
        (processFrontier g cols [o] ∅).2).2).1.length, by omega⟩
  have hrun : bombAround g cols o
      = (processFrontier g cols
          (processFrontier g cols (processFrontier g cols [o] ∅).1
            (processFrontier g cols [o] ∅).2).1
          (processFrontier g cols (processFrontier g cols [o] ∅).1
            (processFrontier g cols [o] ∅).2).2).2 := by
    unfold bombAround
    have step0 := bombLoop_block g cols 0 (by omega) [o] [] ∅ 259
    have step1 := bombLoop_block g cols 1 (by omega)
      (processFrontier g cols [o] ∅).1 []
      (processFrontier g cols [o] ∅).2 r1
    have step2 := bombLoop_block g cols 2 (by omega)
      (processFrontier g cols (processFrontier g cols [o] ∅).1
        (processFrontier g cols [o] ∅).2).1 []
      (processFrontier g cols (processFrontier g cols [o] ∅).1
        (processFrontier g cols [o] ∅).2).2 r2
    simp only [List.map_cons, List.map_nil, List.nil_append, List.append_nil,
      List.length_cons, List.length_nil] at step0 step1 step2
    norm_num at step0 step1 step2
    rw [step0, hr1, step1, hr2, step2, hr3]
    have hskip := bombLoop_skipAll g cols
      ((processFrontier g cols
          (processFrontier g cols (processFrontier g cols [o] ∅).1
            (processFrontier g cols [o] ∅).2).1
          (processFrontier g cols (processFrontier g cols [o] ∅).1
            (processFrontier g cols [o] ∅).2).2).1.map (fun q => (q, 3)))
      r3
      (processFrontier g cols
          (processFrontier g cols (processFrontier g cols [o] ∅).1
            (processFrontier g cols [o] ∅).2).1
          (processFrontier g cols (processFrontier g cols [o] ∅).1
            (processFrontier g cols [o] ∅).2).2).2
      (by
        intro e he
        rcases List.mem_map.mp he with ⟨x, _, hx⟩
        rw [← hx]
        show (2 : ℕ) < 3
        omega)
    rw [List.length_map] at hskip
    exact hskip
  rw [hrun]
  constructor
  · intro hq
    rw [processFrontier_seen, Finset.mem_union] at hq
    rcases hq with hq | hq
    · rw [processFrontier_seen, Finset.mem_union] at hq
      rcases hq with hq | hq
      · rw [processFrontier_seen] at hq
        simp only [Finset.empty_union, List.toFinset_cons, List.toFinset_nil,
          insert_emptyc_eq, Finset.mem_singleton] at hq
        exact Or.inl hq
      · rw [List.mem_toFinset, processFrontier_next_mem] at hq
        rcases hq with ⟨p, hp, _, hnq⟩
        rw [List.mem_singleton] at hp
        exact Or.inr (Or.inl (hp ▸ hnq))
    · rw [List.mem_toFinset, processFrontier_next_mem] at hq
      rcases hq with ⟨p, hp, _, hnq⟩
      rw [processFrontier_next_mem] at hp
      rcases hp with ⟨p', hp', _, hnp⟩
      rw [List.mem_singleton] at hp'
      exact Or.inr (Or.inr ⟨p, hp' ▸ hnp, hnq⟩)
  · intro hq
    rw [processFrontier_seen, Finset.mem_union]
    rcases hq with hq | hq | ⟨m, hm, hq⟩
    · left
      rw [processFrontier_seen, Finset.mem_union]
      left
      rw [processFrontier_seen]
      simp [hq]
    · left
      rw [processFrontier_seen, Finset.mem_union]
      by_cases ho : q ∈ (processFrontier g cols [o] ∅).2
      · exact Or.inl ho
      · right
        rw [List.mem_toFinset, processFrontier_next_mem]
        exact ⟨o, List.mem_singleton_self o, Finset.not_mem_empty o, hq⟩
    · by_cases hm2 : m ∈ (processFrontier g cols [o] ∅).2
      · -- m is the origin: q is then a direct neighbor
        rw [processFrontier_seen] at hm2
        simp only [Finset.empty_union, List.toFinset_cons, List.toFinset_nil,
          insert_emptyc_eq, Finset.mem_singleton] at hm2
        left
        rw [processFrontier_seen, Finset.mem_union]
        by_cases ho : q ∈ (processFrontier g cols [o] ∅).2
        · exact Or.inl ho
        · right
          rw [List.mem_toFinset, processFrontier_next_mem]
          exact ⟨o, List.mem_singleton_self o, Finset.not_mem_empty o,
            hm2 ▸ hq⟩
      · by_cases hseen : q ∈ (processFrontier g cols
            (processFrontier g cols [o] ∅).1
            (processFrontier g cols [o] ∅).2).2
        · exact Or.inl hseen
        · right
          rw [List.mem_toFinset, processFrontier_next_mem]
          refine ⟨m, ?_, hm2, hq⟩
          rw [processFrontier_next_mem]
          exact ⟨o, List.mem_singleton_self o, Finset.not_mem_empty o, hm⟩

/-- **C2 counterexample.**  A bomb snapped into `(0, 1)` of `bombGrid`
clears every non-gray bubble within hex distance 2; the surviving bubble
at `(3, 0)` is then dropped by the disconnection pass (drop count 1),
but its returned count is discarded: the final score is 0, the combo
chain is untouched and no combo event is raised — refuting the claim
that the drop count is used for scoring and combo signaling after bomb
detonation. -/
theorem bomb_drop_count_discarded :
    (trySnapAndResolve 1 1 0 0 3 bombGrid 0 0 0 0
        (flyingBubble 0 1 BubbleColor.red BubbleKind.bomb) 0).grid
      = [[none, none, none], [none, none, none], [none, none, none],
         [none, none, none]]
    ∧ (trySnapAndResolve 1 1 0 0 3 bombGrid 0 0 0 0
        (flyingBubble 0 1 BubbleColor.red BubbleKind.bomb) 0).score = 0
    ∧ (trySnapAndResolve 1 1 0 0 3 bombGrid 0 0 0 0
        (flyingBubble 0 1 BubbleColor.red BubbleKind.bomb) 0).comboChain = 0
    ∧ (trySnapAndResolve 1 1 0 0 3 bombGrid 0 0 0 0
        (flyingBubble 0 1 BubbleColor.red BubbleKind.bomb) 0).comboEvent = false
    ∧ (removeDisconnected (bombSweep bombPlacedGrid
        (bombAround bombPlacedGrid 3 (0, 1))) 3).2 = 1 := by
  decide

/-- **C2 (amended).**  When a bomb-kind bubble is placed, every occupied
non-gray cell within hex (neighbor-graph) distance 2 of the placed cell
— the bomb's own cell included, its color being non-gray — is cleared,
with no score credited; disconnection removal then runs on the blast
result, but its returned drop count is discarded: the score, combo chain
and combo event are all left untouched by a bomb snap. -/
theorem bomb_blast_resolution (V C R d : ℚ) (cols : ℕ) (g : Grid)
    (score : ℤ) (combo : ℕ) (freezeU aimU now : ℚ) (b : Bubble) (g1 : Grid)
    (b' : Bubble) (hplace : trySnapPlace V C R d g cols b = some (g1, b'))
    (hkind : b'.kind = BubbleKind.bomb) :
    (∀ q : ℤ × ℤ,
      gridGet (bombSweep g1 (bombAround g1 cols (b'.row, b'.col))) q.1 q.2
        = match gridGet g1 q.1 q.2 with
          | some bb =>
            if WithinTwo g1 cols (b'.row, b'.col) q
                ∧ bb.color ≠ BubbleColor.gray
            then none else some bb
          | none => none)
    ∧ (trySnapAndResolve V C R d cols g score combo freezeU aimU b now).grid
        = (removeDisconnected
            (bombSweep g1 (bombAround g1 cols (b'.row, b'.col))) cols).1
    ∧ (trySnapAndResolve V C R d cols g score combo freezeU aimU b now).score
        = score
    ∧ (trySnapAndResolve V C R d cols g score combo freezeU aimU b
        now).comboChain = combo
    ∧ (trySnapAndResolve V C R d cols g score combo freezeU aimU b
        now).comboEvent = false := by
  constructor
  · intro q
    have hchar := gridGet_mapIdxGrid
      (fun r c cell =>
        match cell with
        | some bb =>
          if ((r : ℤ), (c : ℤ)) ∈ bombAround g1 cols (b'.row, b'.col)
              ∧ bb.color ≠ BubbleColor.gray
          then none else some bb
        | none => none)
      (fun _ _ => rfl) g1 q.1 q.2
    rw [show gridGet (bombSweep g1 (bombAround g1 cols (b'.row, b'.col))) q.1 q.2
      = _ from hchar]
    cases hg1 : gridGet g1 q.1 q.2 with
    | none => rfl
    | some bb =>
      by_cases hneg : q.1 < 0 ∨ q.2 < 0
      · rw [gridGet_neg g1 q.1 q.2 hneg] at hg1
        cases hg1
      · have hq : ((q.1.toNat : ℤ), (q.2.toNat : ℤ)) = q := by
          have h1 : (q.1.toNat : ℤ) = q.1 := by omega
          have h2 : (q.2.toNat : ℤ) = q.2 := by omega
          rw [h1, h2]
        dsimp only
        rw [hq, if_congr (and_congr_left' (mem_bombAround g1 cols
          (b'.row, b'.col) q)) rfl rfl]
  · unfold trySnapAndResolve
    rw [hplace]
    dsimp only
    rw [hkind]
    exact ⟨rfl, rfl, rfl, rfl⟩

/-- Witness for `bomb_blast_resolution` on the `bombGrid` fixture,
instantiating the cell characterization at the surviving cell `(3, 0)`. -/
theorem bomb_blast_resolution_witness :
    (gridGet (bombSweep bombPlacedGrid
        (bombAround bombPlacedGrid 3 (bombBubblePlaced.row, bombBubblePlaced.col)))
        (3, (0 : ℤ)).1 (3, (0 : ℤ)).2
      = match gridGet bombPlacedGrid (3, (0 : ℤ)).1 (3, (0 : ℤ)).2 with
        | some bb =>
          if WithinTwo bombPlacedGrid 3
              (bombBubblePlaced.row, bombBubblePlaced.col) (3, (0 : ℤ))
              ∧ bb.color ≠ BubbleColor.gray
          then none else some bb
        | none => none)
    ∧ (trySnapAndResolve 1 1 0 0 3 bombGrid 0 0 0 0
        (flyingBubble 0 1 BubbleColor.red BubbleKind.bomb) 0).grid
      = (removeDisconnected (bombSweep bombPlacedGrid
          (bombAround bombPlacedGrid 3
            (bombBubblePlaced.row, bombBubblePlaced.col))) 3).1
    ∧ (trySnapAndResolve 1 1 0 0 3 bombGrid 0 0 0 0
        (flyingBubble 0 1 BubbleColor.red BubbleKind.bomb) 0).score = 0
    ∧ (trySnapAndResolve 1 1 0 0 3 bombGrid 0 0 0 0
        (flyingBubble 0 1 BubbleColor.red BubbleKind.bomb) 0).comboChain = 0
    ∧ (trySnapAndResolve 1 1 0 0 3 bombGrid 0 0 0 0
        (flyingBubble 0 1 BubbleColor.red BubbleKind.bomb) 0).comboEvent
      = false :=
  ⟨(bomb_blast_resolution 1 1 0 0 3 bombGrid 0 0 0 0 0
      (flyingBubble 0 1 BubbleColor.red BubbleKind.bomb) bombPlacedGrid
      bombBubblePlaced (by decide) (by decide)).1 (3, 0),
   (bomb_blast_resolution 1 1 0 0 3 bombGrid 0 0 0 0 0
      (flyingBubble 0 1 BubbleColor.red BubbleKind.bomb) bombPlacedGrid
      bombBubblePlaced (by decide) (by decide)).2.1,
   (bomb_blast_resolution 1 1 0 0 3 bombGrid 0 0 0 0 0
      (flyingBubble 0 1 BubbleColor.red BubbleKind.bomb) bombPlacedGrid
      bombBubblePlaced (by decide) (by decide)).2.2.1,
   (bomb_blast_resolution 1 1 0 0 3 bombGrid 0 0 0 0 0
      (flyingBubble 0 1 BubbleColor.red BubbleKind.bomb) bombPlacedGrid
      bombBubblePlaced (by decide) (by decide)).2.2.2.1,
   (bomb_blast_resolution 1 1 0 0 3 bombGrid 0 0 0 0 0
      (flyingBubble 0 1 BubbleColor.red BubbleKind.bomb) bombPlacedGrid
      bombBubblePlaced (by decide) (by decide)).2.2.2.2⟩

theorem gridGet_some_inv (g : Grid) (r c : ℤ) (b : Bubble)
    (h : gridGet g r c = some b) :
    ¬(r < 0 ∨ c < 0) ∧ ∃ row, g[r.toNat]? = some row
      ∧ row[c.toNat]? = some (some b) := by
  unfold gridGet at h
  by_cases hneg : r < 0 ∨ c < 0
  · rw [if_pos hneg] at h
    cases h
  · rw [if_neg hneg] at h
    refine ⟨hneg, ?_⟩
    cases hrow : g[r.toNat]? with
    | none => rw [hrow] at h; cases h
    | some row =>
      rw [hrow] at h
      simp only [Option.some_bind] at h
      cases hc : row[c.toNat]? with
      | none => rw [hc] at h; cases h
      | some cell =>
        rw [hc] at h
        cases cell with
        | none => cases h
        | some b3 =>
          refine ⟨row, rfl, ?_⟩
          rw [hc]
          cases h
          rfl

theorem length_neighbors_le (g : Grid) (cols : ℕ) (r c : ℤ) :
    (neighbors g cols r c).length ≤ 6 :=
  le_trans (List.length_filterMap_le _ _) (by rw [show
    (neighborCandidates r c).length = 6 from rfl])

theorem mem_neighbors_inv (g : Grid) (cols : ℕ) (r c rr cc : ℤ)
    (ob : Option Bubble) (h : (rr, cc, ob) ∈ neighbors g cols r c) :
    0 ≤ rr ∧ rr < (g.length : ℤ) ∧ 0 ≤ cc ∧ cc < rowWidth cols rr
      ∧ ob = gridGet g rr cc := by
  unfold neighbors at h
  rcases List.mem_filterMap.mp h with ⟨a, _, hfa⟩
  by_cases h1 : a.1 < 0 ∨ (g.length : ℤ) ≤ a.1
  · rw [if_pos h1] at hfa
    cases hfa
  · rw [if_neg h1] at hfa
    by_cases h2 : a.2 < 0 ∨ rowWidth cols a.1 ≤ a.2
    · rw [if_pos h2] at hfa
      cases hfa
    · rw [if_neg h2] at hfa
      have hea := Option.some.inj hfa
      obtain ⟨e1, e23⟩ := Prod.mk.injEq _ _ _ _ ▸ hea
      obtain ⟨e2, e3⟩ := Prod.mk.injEq _ _ _ _ ▸ e23
      push_neg at h1 h2
      subst e1
      subst e2
      exact ⟨h1.1, h1.2, h2.1, h2.2, e3.symm⟩

theorem rowWidth_le (cols : ℕ) (r : ℤ) : rowWidth cols r ≤ (cols : ℤ) := by
  unfold rowWidth
  split <;> omega

theorem mem_cellRect_of_neighbors (g : Grid) (cols : ℕ) (r c rr cc : ℤ)
    (ob : Option Bubble) (h : (rr, cc, ob) ∈ neighbors g cols r c) :
    (rr, cc) ∈ cellRect g cols := by
  obtain ⟨h1, h2, h3, h4, _⟩ := mem_neighbors_inv g cols r c rr cc ob h
  have h5 := rowWidth_le cols rr
  unfold cellRect
  rw [Finset.mem_product, Finset.mem_Icc, Finset.mem_Icc]
  constructor
  · exact ⟨h1, by omega⟩
  · exact ⟨h3, by omega⟩

theorem discPushes_mem (g : Grid) (cols : ℕ) (cur : ℤ × ℤ)
    (visited' : Finset (ℤ × ℤ)) (q : ℤ × ℤ) :
    q ∈ (neighbors g cols cur.1 cur.2).filterMap (fun n =>
        match n.2.2 with
        | none => none
        | some nb =>
          if (n.1, n.2.1) ∈ visited' ∨ nb.color = BubbleColor.gray then none
          else some (n.1, n.2.1))
      ↔ EligSucc g cols cur q ∧ q ∉ visited' := by
  constructor
  · intro hq
    rcases List.mem_filterMap.mp hq with ⟨n, hn, hfn⟩
    rcases n with ⟨rr, cc, ob⟩
    cases ob with
    | none => cases hfn
    | some nb =>
      dsimp only at hfn
      by_cases hguard : (rr, cc) ∈ visited' ∨ nb.color = BubbleColor.gray
      · rw [if_pos hguard] at hfn
        cases hfn
      · rw [if_neg hguard] at hfn
        have he := Option.some.inj hfn
        push_neg at hguard
        subst he
        exact ⟨⟨nb, hn, hguard.2⟩, hguard.1⟩
  · rintro ⟨⟨bb, hmem, hgray⟩, hnv⟩
    apply List.mem_filterMap.mpr
    refine ⟨(q.1, q.2, some bb), hmem, ?_⟩
    dsimp only
    rw [if_neg (by
      push_neg
      exact ⟨hnv, hgray⟩)]

theorem card_sdiff_insert_lt (s t : Finset (ℤ × ℤ)) (a : ℤ × ℤ)
    (ha : a ∈ s) (hna : a ∉ t) :
    (s \ insert a t).card < (s \ t).card := by
  apply Finset.card_lt_card
  rw [Finset.ssubset_def]
  constructor
  · intro x hx
    rw [Finset.mem_sdiff] at hx ⊢
    exact ⟨hx.1, fun hxt => hx.2 (Finset.mem_insert_of_mem hxt)⟩
  · intro hsub
    have h1 : a ∈ s \ t := Finset.mem_sdiff.mpr ⟨ha, hna⟩
    have h2 := hsub h1
    rw [Finset.mem_sdiff] at h2
    exact h2.2 (Finset.mem_insert_self a t)

theorem discLoop_spec (g : Grid) (cols : ℕ) (fuel : ℕ) :
    ∀ (stack : List (ℤ × ℤ)) (visited : Finset (ℤ × ℤ)),
      stack.length + 7 * ((cellRect g cols) \ visited).card ≤ fuel →
      (∀ p ∈ stack, p ∈ cellRect g cols) →
      (∀ p ∈ visited, (gridGet g p.1 p.2).isSome →
        ∀ q, EligSucc g cols p q → q ∈ visited ∨ q ∈ stack) →
      (∀ p ∈ stack, p ∈ discLoop g cols fuel stack visited)
      ∧ (∀ p ∈ visited, p ∈ discLoop g cols fuel stack visited)
      ∧ (∀ p ∈ discLoop g cols fuel stack visited,
          (gridGet g p.1 p.2).isSome →
          ∀ q, EligSucc g cols p q →
            q ∈ discLoop g cols fuel stack visited) := by
  induction fuel with
  | zero =>
    intro stack visited hmu _ hclo
    have hstack : stack = [] := by
      cases stack with
      | nil => rfl
      | cons a l =>
        rw [List.length_cons] at hmu
        omega
    subst hstack
    refine ⟨(by intro p hp; cases hp), fun p hp => hp, ?_⟩
    intro p hp hso q hq
    rcases hclo p hp hso q hq with h | h
    · exact h
    · cases h
  | succ fuel ih =>
    intro stack visited hmu hrect hclo
    cases stack with
    | nil =>
      refine ⟨(by intro p hp; cases hp), fun p hp => hp, ?_⟩
      intro p hp hso q hq
      rcases hclo p hp hso q hq with h | h
      · exact h
      · cases h
    | cons cur rest =>
      have hcur_rect := hrect cur (List.mem_cons_self _ _)
      rw [List.length_cons] at hmu
      by_cases hv : cur ∈ visited
      · have hstep : discLoop g cols (fuel + 1) (cur :: rest) visited
            = discLoop g cols fuel rest visited := by
          simp only [discLoop]
          rw [if_pos hv]
        rw [hstep]
        have hres := ih rest visited (by omega)
          (fun p hp => hrect p (List.mem_cons_of_mem _ hp))
          (by
            intro p hp hso q hq
            rcases hclo p hp hso q hq with h | h
            · exact Or.inl h
            · rcases List.mem_cons.mp h with h1 | h1
              · exact Or.inl (h1 ▸ hv)
              · exact Or.inr h1)
        refine ⟨?_, hres.2.1, hres.2.2⟩
        intro p hp
        rcases List.mem_cons.mp hp with h1 | h1
        · exact h1 ▸ hres.2.1 cur hv
        · exact hres.1 p h1
      · have hcard := card_sdiff_insert_lt (cellRect g cols) visited cur
          hcur_rect hv
        rcases hocc : gridGet g cur.1 cur.2 with _ | bb
        · have hstep : discLoop g cols (fuel + 1) (cur :: rest) visited
              = discLoop g cols fuel rest (insert cur visited) := by
            simp only [discLoop]
            rw [if_neg hv, hocc]
          rw [hstep]
          have hres := ih rest (insert cur visited) (by omega)
            (fun p hp => hrect p (List.mem_cons_of_mem _ hp))
            (by
              intro p hp hso q hq
              rcases Finset.mem_insert.mp hp with h1 | h1
              · rw [h1, hocc] at hso
                cases hso
              · rcases hclo p h1 hso q hq with h | h
                · exact Or.inl (Finset.mem_insert_of_mem h)
                · rcases List.mem_cons.mp h with h2 | h2
                  · exact Or.inl (h2 ▸ Finset.mem_insert_self _ _)
                  · exact Or.inr h2)
          refine ⟨?_, ?_, hres.2.2⟩
          · intro p hp
            rcases List.mem_cons.mp hp with h1 | h1
            · exact h1 ▸ hres.2.1 cur (Finset.mem_insert_self _ _)
            · exact hres.1 p h1
          · exact fun p hp => hres.2.1 p (Finset.mem_insert_of_mem hp)
        · have hstep : discLoop g cols (fuel + 1) (cur :: rest) visited
              = discLoop g cols fuel
                  (((neighbors g cols cur.1 cur.2).filterMap (fun n =>
                    match n.2.2 with
                    | none => none
                    | some nb =>
                      if (n.1, n.2.1) ∈ insert cur visited
                          ∨ nb.color = BubbleColor.gray then none
                      else some (n.1, n.2.1))).reverse ++ rest)
                  (insert cur visited) := by
            simp only [discLoop]
            rw [if_neg hv, hocc]
          rw [hstep]
          have hplen : ((neighbors g cols cur.1 cur.2).filterMap (fun n =>
              match n.2.2 with
              | none => none
              | some nb =>
                if (n.1, n.2.1) ∈ insert cur visited
                    ∨ nb.color = BubbleColor.gray then none
                else some (n.1, n.2.1))).length ≤ 6 :=
            le_trans (List.length_filterMap_le _ _)
              (length_neighbors_le g cols cur.1 cur.2)
          have hres := ih
            (((neighbors g cols cur.1 cur.2).filterMap (fun n =>
              match n.2.2 with
              | none => none
              | some nb =>
                if (n.1, n.2.1) ∈ insert cur visited
                    ∨ nb.color = BubbleColor.gray then none
                else some (n.1, n.2.1))).reverse ++ rest)
            (insert cur visited)
            (by
              rw [List.length_append, List.length_reverse]
              omega)
            (by
              intro p hp
              rcases List.mem_append.mp hp with h1 | h1
              · rw [List.mem_reverse] at h1
                obtain ⟨⟨bb', hmem, _⟩, _⟩ :=
                  (discPushes_mem g cols cur (insert cur visited) p).mp h1
                exact mem_cellRect_of_neighbors g cols cur.1 cur.2 p.1 p.2
                  (some bb') (by
                    have : (p.1, p.2, some bb') = (p.1, (p.2, some bb')) := rfl
                    exact hmem)
              · exact hrect p (List.mem_cons_of_mem _ h1))
            (by
              intro p hp hso q hq
              rcases Finset.mem_insert.mp hp with h1 | h1
              · subst h1
                by_cases hqv : q ∈ insert p visited
                · exact Or.inl hqv
                · refine Or.inr (List.mem_append.mpr (Or.inl ?_))
                  rw [List.mem_reverse]
                  exact (discPushes_mem g cols p (insert p visited) q).mpr
                    ⟨hq, hqv⟩
              · rcases hclo p h1 hso q hq with h | h
                · exact Or.inl (Finset.mem_insert_of_mem h)
                · rcases List.mem_cons.mp h with h2 | h2
                  · exact Or.inl (h2 ▸ Finset.mem_insert_self _ _)
                  · exact Or.inr (List.mem_append.mpr (Or.inr h2)))
          refine ⟨?_, ?_, hres.2.2⟩
          · intro p hp
            rcases List.mem_cons.mp hp with h1 | h1
            · exact h1 ▸ hres.2.1 cur (Finset.mem_insert_self _ _)
            · exact hres.1 p (List.mem_append.mpr (Or.inr h1))
          · exact fun p hp => hres.2.1 p (Finset.mem_insert_of_mem hp)

theorem discLoop_sound (g : Grid) (cols : ℕ) (fuel : ℕ) :
    ∀ (stack : List (ℤ × ℤ)) (visited : Finset (ℤ × ℤ)),
      (∀ p ∈ stack, Anchored g cols p) →
      (∀ p ∈ visited, Anchored g cols p) →
      ∀ p ∈ discLoop g cols fuel stack visited, Anchored g cols p := by
  induction fuel with
  | zero => exact fun stack visited _ hvis p hp => hvis p hp
  | succ fuel ih =>
    intro stack visited hstk hvis p hp
    cases stack with
    | nil => exact hvis p hp
    | cons cur rest =>
      by_cases hv : cur ∈ visited
      · rw [show discLoop g cols (fuel + 1) (cur :: rest) visited
            = discLoop g cols fuel rest visited from by
          simp only [discLoop]; rw [if_pos hv]] at hp
        exact ih rest visited (fun p' hp' => hstk p' (List.mem_cons_of_mem _ hp'))
          hvis p hp
      · have hanch_cur := hstk cur (List.mem_cons_self _ _)
        have hvis' : ∀ p' ∈ insert cur visited, Anchored g cols p' := by
          intro p' hp'
          rcases Finset.mem_insert.mp hp' with h1 | h1
          · exact h1 ▸ hanch_cur
          · exact hvis p' h1
        rcases hocc : gridGet g cur.1 cur.2 with _ | bb
        · rw [show discLoop g cols (fuel + 1) (cur :: rest) visited
              = discLoop g cols fuel rest (insert cur visited) from by
            simp only [discLoop]; rw [if_neg hv, hocc]] at hp
          exact ih rest (insert cur visited)
            (fun p' hp' => hstk p' (List.mem_cons_of_mem _ hp')) hvis' p hp
        · rw [show discLoop g cols (fuel + 1) (cur :: rest) visited
              = discLoop g cols fuel
                  (((neighbors g cols cur.1 cur.2).filterMap (fun n =>
                    match n.2.2 with
                    | none => none
                    | some nb =>
                      if (n.1, n.2.1) ∈ insert cur visited
                          ∨ nb.color = BubbleColor.gray then none
                      else some (n.1, n.2.1))).reverse ++ rest)
                  (insert cur visited) from by
            simp only [discLoop]; rw [if_neg hv, hocc]] at hp
          apply ih _ (insert cur visited) ?_ hvis' p hp
          intro p' hp'
          rcases List.mem_append.mp hp' with h1 | h1
          · rw [List.mem_reverse] at h1
            obtain ⟨⟨bb', hmem, hgray⟩, _⟩ :=
              (discPushes_mem g cols cur (insert cur visited) p').mp h1
            exact Anchored.step cur p' bb' hanch_cur hmem hgray
          · exact hstk p' (List.mem_cons_of_mem _ h1)

theorem mem_discSeeds (g : Grid) (cols : ℕ) (p : ℤ × ℤ) :
    p ∈ discSeeds g cols
      ↔ ∃ c : ℕ, c < cols ∧ (gridGet g 0 (c : ℤ)).isSome ∧ p = (0, (c : ℤ)) := by
  unfold discSeeds
  rw [List.mem_filterMap]
  constructor
  · rintro ⟨c, hc, hfc⟩
    rw [List.mem_range] at hc
    by_cases hso : (gridGet g 0 (c : ℤ)).isSome
    · rw [if_pos hso] at hfc
      exact ⟨c, hc, hso, (Option.some.inj hfc).symm⟩
    · rw [if_neg hso] at hfc
      cases hfc
  · rintro ⟨c, hc, hso, rfl⟩
    exact ⟨c, List.mem_range.mpr hc, by rw [if_pos hso]⟩

theorem anchored_isSome (g : Grid) (cols : ℕ) (p : ℤ × ℤ)
    (h : Anchored g cols p) : (gridGet g p.1 p.2).isSome := by
  induction h with
  | seed c hc hb => exact hb
  | step p q bb hp hq hgray ih =>
    obtain ⟨_, _, _, _, he⟩ := mem_neighbors_inv g cols p.1 p.2 q.1 q.2
      (some bb) hq
    rw [← he]
    rfl

theorem anchored_pos_len (g : Grid) (cols : ℕ) (c : ℕ)
    (hso : (gridGet g 0 (c : ℤ)).isSome) : 0 < g.length := by
  obtain ⟨b, hb⟩ := Option.isSome_iff_exists.mp hso
  obtain ⟨_, row, hrow, _⟩ := gridGet_some_inv g 0 c b hb
  obtain ⟨hlt, _⟩ := List.getElem?_eq_some.mp hrow
  omega

theorem mem_discVisited (g : Grid) (cols : ℕ) (p : ℤ × ℤ) :
    p ∈ discVisited g cols ↔ Anchored g cols p := by
  have hseeds_len : (discSeeds g cols).length ≤ cols := by
    unfold discSeeds
    calc ((List.range cols).filterMap _).length
        ≤ (List.range cols).length := List.length_filterMap_le _ _
      _ = cols := List.length_range cols
  have hcard : ((cellRect g cols) \ ∅).card = g.length * cols := by
    rw [Finset.sdiff_empty]
    unfold cellRect
    rw [Finset.card_product, Int.card_Icc, Int.card_Icc]
    have h1 : ((g.length : ℤ) - 1 + 1 - 0).toNat = g.length := by omega
    have h2 : (((cols : ℕ) : ℤ) - 1 + 1 - 0).toNat = cols := by omega
    rw [h1, h2]
  have hmu : (discSeeds g cols).reverse.length
      + 7 * ((cellRect g cols) \ ∅).card ≤ traverseFuel g cols := by
    rw [List.length_reverse, hcard]
    unfold traverseFuel
    have hassoc : 7 * g.length * cols = 7 * (g.length * cols) :=
      Nat.mul_assoc 7 _ _
    rw [hassoc]
    omega
  have hrect : ∀ p' ∈ (discSeeds g cols).reverse, p' ∈ cellRect g cols := by
    intro p' hp'
    rw [List.mem_reverse, mem_discSeeds] at hp'
    obtain ⟨c, hc, hso, rfl⟩ := hp'
    have hlen := anchored_pos_len g cols c hso
    unfold cellRect
    rw [Finset.mem_product, Finset.mem_Icc, Finset.mem_Icc]
    refine ⟨⟨le_refl 0, by omega⟩, ⟨by omega, by omega⟩⟩
  have hspec := discLoop_spec g cols (traverseFuel g cols)
    (discSeeds g cols).reverse ∅ hmu hrect
    (fun p' hp' => absurd hp' (Finset.not_mem_empty p'))
  constructor
  · intro hp
    apply discLoop_sound g cols (traverseFuel g cols)
      (discSeeds g cols).reverse ∅ ?_
      (fun p' hp' => absurd hp' (Finset.not_mem_empty p')) p hp
    intro p' hp'
    rw [List.mem_reverse, mem_discSeeds] at hp'
    obtain ⟨c, hc, hso, rfl⟩ := hp'
    exact Anchored.seed c hc hso
  · intro hanch
    induction hanch with
    | seed c hc hb =>
      apply hspec.1
      rw [List.mem_reverse, mem_discSeeds]
      exact ⟨c, hc, hb, rfl⟩
    | step p q bb hp hq hgray ih =>
      exact hspec.2.2 p ih (anchored_isSome g cols p hp) q ⟨bb, hq, hgray⟩

theorem sweep_row_count (f : ℕ → Option Bubble → Bool)
    (row : List (Option Bubble)) (hf : ∀ c, f c none = false) :
    ((row.mapIdx (fun c cell => if f c cell then none else cell)).countP
        (fun cell => cell.isSome))
      + (row.mapIdx f).count true
      = row.countP (fun cell => cell.isSome) := by
  induction row generalizing f with
  | nil => rfl
  | cons cell rest ih =>
    rw [List.mapIdx_cons, List.mapIdx_cons, List.countP_cons, List.count_cons,
      List.countP_cons]
    have hrec := ih (fun i => f (i + 1)) (fun c => hf (c + 1))
    beta_reduce
    beta_reduce at hrec
    by_cases hcell : f 0 cell = true
    · have hsome : cell.isSome = true := by
        cases cell with
        | none => rw [hf 0] at hcell; cases hcell
        | some b => rfl
      simp only [hcell, hsome]
      norm_num
      omega
    · rw [Bool.not_eq_true] at hcell
      simp only [hcell]
      norm_num
      cases hcs : cell.isSome
      all_goals first
        | omega
        | (norm_num; omega)
        | norm_num

theorem sweep_grid_count (g : Grid) (fdrop : ℕ → ℕ → Option Bubble → Bool)
    (hf : ∀ r c, fdrop r c none = false) :
    (g.mapIdx (fun r row =>
        (row.mapIdx (fun c cell => fdrop r c cell)).count true)).sum
      + occupiedCount (g.mapIdx (fun r row =>
          row.mapIdx (fun c cell => if fdrop r c cell then none else cell)))
      = occupiedCount g := by
  induction g generalizing fdrop with
  | nil => rfl
  | cons row rest ih =>
    rw [List.mapIdx_cons, List.mapIdx_cons]
    unfold occupiedCount
    rw [List.map_cons, List.map_cons, List.sum_cons, List.sum_cons,
      List.sum_cons]
    have hrow := sweep_row_count (fun c cell => fdrop 0 c cell) row (hf 0)
    have hrec := ih (fun r => fdrop (r + 1)) (fun r c => hf (r + 1) c)
    unfold occupiedCount at hrec
    beta_reduce
    beta_reduce at hrow hrec
    omega

/-- **C5.** `removeDisconnected` removes exactly the occupied non-gray
bubbles that are not anchored — reachable from some occupied cell of
row 0 through in-bounds neighbor edges entering only non-gray occupied
bubbles (color irrelevant).  Gray bubbles are never removed regardless
of connectivity, anchored bubbles survive unchanged, empty cells stay
empty, and the returned count equals the number of bubbles removed
(occupied cells lost by the sweep). -/
theorem removeDisconnected_removes_unanchored (g : Grid) (cols : ℕ) :
    (∀ (r c : ℤ) (b : Bubble), gridGet g r c = some b →
      ((b.color ≠ BubbleColor.gray ∧ ¬Anchored g cols (r, c) →
          gridGet (removeDisconnected g cols).1 r c = none)
        ∧ (b.color = BubbleColor.gray ∨ Anchored g cols (r, c) →
          gridGet (removeDisconnected g cols).1 r c = some b)))
    ∧ (∀ r c : ℤ, gridGet g r c = none →
        gridGet (removeDisconnected g cols).1 r c = none)
    ∧ (removeDisconnected g cols).2
        + occupiedCount (removeDisconnected g cols).1 = occupiedCount g := by
  refine ⟨?_, ?_, ?_⟩
  · intro r c b hb
    obtain ⟨hneg, -⟩ := gridGet_some_inv g r c b hb
    have hcast : ((r.toNat : ℤ), (c.toNat : ℤ)) = (r, c) := by
      have h1 : (r.toNat : ℤ) = r := by omega
      have h2 : (c.toNat : ℤ) = c := by omega
      rw [h1, h2]
    have hiff : shouldDrop (discVisited g cols) r.toNat c.toNat (some b) = true
        ↔ (b.color ≠ BubbleColor.gray ∧ ¬Anchored g cols (r, c)) := by
      unfold shouldDrop
      rw [decide_eq_true_iff]
      constructor
      · rintro ⟨hcol, hmem⟩
        refine ⟨hcol, fun hanch => hmem ?_⟩
        rw [hcast]
        exact (mem_discVisited g cols (r, c)).mpr hanch
      · rintro ⟨hcol, hanch⟩
        refine ⟨hcol, fun hmem => hanch ?_⟩
        rw [hcast] at hmem
        exact (mem_discVisited g cols (r, c)).mp hmem
    constructor
    · intro hcond
      rw [gridGet_removeDisconnected, hb, if_pos (hiff.mpr hcond)]
    · intro hcond
      rw [gridGet_removeDisconnected, hb, if_neg (by
        intro htrue
        rcases hcond with h1 | h1
        · exact (hiff.mp htrue).1 h1
        · exact (hiff.mp htrue).2 h1)]
  · exact fun r c h => gridGet_removeDisconnected_of_none g cols r c h
  · exact sweep_grid_count g
      (fun r c cell => shouldDrop (discVisited g cols) r c cell)
      (fun _ _ => rfl)

/-- Witness for `removeDisconnected_removes_unanchored` on `discGrid`:
the floating red bubble at `(3, 0)` falls, the red bubble at `(1, 0)`
anchored through the gray row-0 seed survives, and the returned count
balances the occupied-cell totals. -/
theorem removeDisconnected_removes_unanchored_witness :
    gridGet (removeDisconnected discGrid 3).1 3 0 = none
    ∧ gridGet (removeDisconnected discGrid 3).1 1 0
        = some (gridBubble 1 0 BubbleColor.red)
    ∧ (removeDisconnected discGrid 3).2
        + occupiedCount (removeDisconnected discGrid 3).1
      = occupiedCount discGrid :=
  ⟨((removeDisconnected_removes_unanchored discGrid 3).1 3 0
      (gridBubble 3 0 BubbleColor.red) (by decide)).1
    ⟨by decide, fun hanch =>
      absurd ((mem_discVisited discGrid 3 (3, 0)).mpr hanch) (by decide)⟩,
   ((removeDisconnected_removes_unanchored discGrid 3).1 1 0
      (gridBubble 1 0 BubbleColor.red) (by decide)).2
    (Or.inr ((mem_discVisited discGrid 3 (1, 0)).mp (by decide))),
   (removeDisconnected_removes_unanchored discGrid 3).2.2⟩

end BubbleShooter
